import Mathlib

/-!
# RISC-V support of LLDB: calling convention, unwind plans, register catalog

A shallow embedding of

* `source/Plugins/ABI/RISCV/ABISysV_riscv.cpp`
* `source/Plugins/Process/Utility/RegisterInfos_riscv64.h`
* `source/Plugins/Process/Utility/RegisterInfoPOSIX_riscv64.cpp` and `.h`
* `source/Utility/RISCV64_DWARF_Registers.h`
* `source/Plugins/Process/Linux/NativeRegisterContextLinux_riscv64.h`

Pointers that may be null are `Option`, `uint32_t` and `size_t` values are
natural numbers (no arithmetic of the embedded code can wrap), an object
passed by reference and modified is returned next to the result, and a call
that can end in a failing `assert` returns an `Except`.
-/

/-! ## Part 1: definitions -/

/-! ### Constants of `lldb/lldb-defines.h` -/

/-- Modelled from the spec: the macro LLDB_INVALID_REGNUM of lldb/lldb-defines.h, a header
that is not under src/. It is the "NONE" / "not found" / "invalid" number of the spec; the
header gives it the value UINT32_MAX. -/
def LLDB_INVALID_REGNUM : Nat := 4294967295

/-- Modelled from the spec: the generic role PC (macro of lldb/lldb-defines.h, not under
src/), with the number the header gives it. -/
def LLDB_REGNUM_GENERIC_PC : Nat := 0

/-- Modelled from the spec: the generic role SP (macro of lldb/lldb-defines.h, not under
src/), with the number the header gives it. -/
def LLDB_REGNUM_GENERIC_SP : Nat := 1

/-- Modelled from the spec: the generic role FP (macro of lldb/lldb-defines.h, not under
src/), with the number the header gives it. -/
def LLDB_REGNUM_GENERIC_FP : Nat := 2

/-- Modelled from the spec: the generic role RA (macro of lldb/lldb-defines.h, not under
src/), with the number the header gives it. -/
def LLDB_REGNUM_GENERIC_RA : Nat := 3

/-- Modelled from the spec: the generic role ARG1 (macro of lldb/lldb-defines.h, not under
src/), with the number the header gives it. -/
def LLDB_REGNUM_GENERIC_ARG1 : Nat := 5

/-- Modelled from the spec: the generic role ARG2 (lldb/lldb-defines.h, not under src/). -/
def LLDB_REGNUM_GENERIC_ARG2 : Nat := 6

/-- Modelled from the spec: the generic role ARG3 (lldb/lldb-defines.h, not under src/). -/
def LLDB_REGNUM_GENERIC_ARG3 : Nat := 7

/-- Modelled from the spec: the generic role ARG4 (lldb/lldb-defines.h, not under src/). -/
def LLDB_REGNUM_GENERIC_ARG4 : Nat := 8

/-- Modelled from the spec: the generic role ARG5 (lldb/lldb-defines.h, not under src/). -/
def LLDB_REGNUM_GENERIC_ARG5 : Nat := 9

/-- Modelled from the spec: the generic role ARG6 (lldb/lldb-defines.h, not under src/). -/
def LLDB_REGNUM_GENERIC_ARG6 : Nat := 10

/-- Modelled from the spec: the generic role ARG7 (lldb/lldb-defines.h, not under src/). -/
def LLDB_REGNUM_GENERIC_ARG7 : Nat := 11

/-- Modelled from the spec: the generic role ARG8 (lldb/lldb-defines.h, not under src/). -/
def LLDB_REGNUM_GENERIC_ARG8 : Nat := 12

/-! ### Enumerations of `lldb/lldb-enumerations.h` and `lldb/lldb-private-enumerations.h` -/

namespace lldb

/-- Modelled from the spec: enum lldb::RegisterKind of lldb/lldb-enumerations.h, a header
that is not under src/. The spec's numbering spaces (exception-frame, debug-format, generic
role, architecture-native), in the order of the header, which has the number of the process
plugin between the generic and the native one. DEFINE_DBG of RegisterInfoPOSIX_riscv64.cpp
fills the five entries of a kinds array with the native number last. -/
inductive RegisterKind where
  | eRegisterKindEHFrame
  | eRegisterKindDWARF
  | eRegisterKindGeneric
  | eRegisterKindProcessPlugin
  | eRegisterKindLLDB
  deriving DecidableEq, Repr

/-- The value of an enumerator of lldb::RegisterKind: its position in the declaration,
counted from eRegisterKindEHFrame = 0. -/
def RegisterKind.toNat : RegisterKind → Nat
  | .eRegisterKindEHFrame => 0
  | .eRegisterKindDWARF => 1
  | .eRegisterKindGeneric => 2
  | .eRegisterKindProcessPlugin => 3
  | .eRegisterKindLLDB => 4

/-- Modelled from the spec: the closing enumerator kNumRegisterKinds of lldb::RegisterKind
(lldb/lldb-enumerations.h, not under src/), the length of a descriptor's kinds array. -/
def kNumRegisterKinds : Nat := 5

/-- Modelled from the spec: enum lldb::Encoding (lldb/lldb-enumerations.h, not under src/),
the spec's encoding: enum{uint, ieee754, vector}, with the header's invalid and signed
members. -/
inductive Encoding where
  | eEncodingInvalid
  | eEncodingUint
  | eEncodingSint
  | eEncodingIEEE754
  | eEncodingVector
  deriving DecidableEq, Repr

/-- Modelled from the spec: enum lldb::Format (lldb/lldb-enumerations.h, not under src/),
the spec's display_format: only the members the catalog can name are kept. -/
inductive Format where
  | eFormatDefault
  | eFormatHex
  deriving DecidableEq, Repr

end lldb

namespace lldb_private

/-- Modelled from the spec: enum lldb_private::LazyBool (lldb/lldb-private-enumerations.h,
not under src/), the type of a plan's trust flags: not yet decided, no, yes. -/
inductive LazyBool where
  | eLazyBoolCalculate
  | eLazyBoolNo
  | eLazyBoolYes
  deriving DecidableEq, Repr

/-- Modelled from the spec: struct lldb_private::RegisterInfo (lldb/lldb-private-types.h,
not under src/), the spec's RegisterDescriptor. The fields are those the initialisers of
DEFINE_GPR64 in RegisterInfos_riscv64.h fill, in their order. -/
structure RegisterInfo where
  name : String
  alt_name : Option String
  byte_size : Nat
  byte_offset : Nat
  encoding : lldb.Encoding
  format : lldb.Format
  kinds : List Nat
  value_regs : Option (List Nat)
  invalidate_regs : Option (List Nat)
  dynamic_size_dwarf_expr_bytes : Option (List Nat)
  dynamic_size_dwarf_len : Nat
  deriving DecidableEq, Repr

/-- Modelled from the spec: struct lldb_private::RegisterSet (lldb/lldb-private-types.h,
not under src/), the spec's RegisterSetDescriptor: display name, short name, number of
registers and the array of native indices (with its terminator, as the source writes it). -/
structure RegisterSet where
  name : String
  short_name : String
  num_registers : Nat
  registers : List Nat
  deriving DecidableEq, Repr

end lldb_private

/-! ### `llvm::StringSwitch` -/

namespace llvm

/-- The class llvm::StringSwitch of LLVM's llvm/ADT/StringSwitch.h: the string switched on
and the result of the first case that matched, if any. -/
structure StringSwitch (T : Type) where
  Str : String
  Result : Option T

namespace StringSwitch

/-- The constructor `StringSwitch(S)`: nothing has matched yet. -/
def create {T : Type} (S : String) : StringSwitch T :=
  { Str := S, Result := none }

/-- The method `Case(S, Value)`: `if (!Result && Str == S) Result = Value`. -/
def Case {T : Type} (self : StringSwitch T) (S : String) (Value : T) : StringSwitch T :=
  if self.Result.isNone ∧ self.Str = S then { self with Result := some Value } else self

/-- The methods `Cases(S0, ..., Sn, Value)`: `Case(S0, Value).Cases(S1, ..., Sn, Value)`. -/
def Cases {T : Type} (self : StringSwitch T) : List String → T → StringSwitch T
  | [], _ => self
  | S0 :: rest, Value => Cases (self.Case S0 Value) rest Value

/-- The method `Default(Value)`: the stored result if a case matched, else `Value`. -/
def Default {T : Type} (self : StringSwitch T) (Value : T) : T :=
  match self.Result with
  | some r => r
  | none => Value

end StringSwitch

end llvm

/-! ### `llvm::Triple` -/

namespace llvm

/-- The enum llvm::Triple::ArchType of LLVM's llvm/ADT/Triple.h. The embedded code compares
an architecture with riscv32 and riscv64 only; of the other members of the enum a few are
kept to stand for "any other architecture". -/
inductive Triple.ArchType where
  | UnknownArch
  | arm
  | aarch64
  | mips64
  | ppc64
  | riscv32
  | riscv64
  | x86
  | x86_64
  deriving DecidableEq, Repr

/-- The part of llvm::Triple the embedded code reads: its architecture. -/
structure Triple where
  Arch : Triple.ArchType
  deriving DecidableEq, Repr

/-- The accessor `Triple::getArch()`. -/
def Triple.getArch (t : Triple) : Triple.ArchType := t.Arch

end llvm

/-! ### The process an ABI object is bound to -/

namespace lldb_private

/-- The two hard-float ABI masks `ArchSpec::eRISCV_abi_f` and `ArchSpec::eRISCV_abi_d`
that ABISysV_riscv.cpp tests. Their header (lldb/Utility/ArchSpec.h) is not under src/, so
the embedding takes them as parameters: every result holds for every pair of values. -/
structure RISCVAbiMasks where
  eRISCV_abi_f : Nat
  eRISCV_abi_d : Nat
  deriving DecidableEq, Repr

/-- The part of `ArchSpec` the embedded code reads: the flags word returned by
`GetFlags()`, the triple returned by `GetTriple()` and the machine returned by
`GetMachine()`; the last two are unknown in an ArchSpec that was given none, as the default
constructor of the class leaves them. -/
structure ArchSpec where
  m_flags : Nat
  m_triple : llvm.Triple := { Arch := llvm.Triple.ArchType.UnknownArch }
  m_machine : llvm.Triple.ArchType := llvm.Triple.ArchType.UnknownArch
  deriving DecidableEq, Repr

/-- The accessor `ArchSpec::GetFlags()`. -/
def ArchSpec.GetFlags (arch : ArchSpec) : Nat := arch.m_flags

/-- The accessor `ArchSpec::GetTriple()`. -/
def ArchSpec.GetTriple (arch : ArchSpec) : llvm.Triple := arch.m_triple

/-- The accessor `ArchSpec::GetMachine()`. -/
def ArchSpec.GetMachine (arch : ArchSpec) : llvm.Triple.ArchType := arch.m_machine

/-- The part of `Target` the ABI reads: its architecture. -/
structure Target where
  m_arch : ArchSpec
  deriving DecidableEq, Repr

/-- The accessor `Target::GetArchitecture()`. -/
def Target.GetArchitecture (t : Target) : ArchSpec := t.m_arch

/-- The part of `Process` the ABI reads: its target. -/
structure Process where
  m_target : Target
  deriving DecidableEq, Repr

/-- The accessor `Process::GetTarget()`. -/
def Process.GetTarget (p : Process) : Target := p.m_target

end lldb_private

open lldb lldb_private

/-- The state of an `ABISysV_riscv` object the embedded methods read: the process it is
bound to, `none` when `GetProcessSP()` gives a null pointer. -/
structure ABISysV_riscv where
  m_process : Option Process
  deriving DecidableEq, Repr

namespace ABISysV_riscv

/-- The accessor `ABI::GetProcessSP()`: the bound process, or a null pointer. -/
def GetProcessSP (self : ABISysV_riscv) : Option Process := self.m_process

/-- The method `ABISysV_riscv::IsHardFloatProcess` (ABISysV_riscv.cpp, lines 201-211). In
C++ `&` binds tighter than `||`, and a non-zero integer is true. -/
def IsHardFloatProcess (M : RISCVAbiMasks) (self : ABISysV_riscv) : Bool :=
  let is_hardfloat := false
  match self.GetProcessSP with
  | some process_sp =>
    let arch := process_sp.GetTarget.GetArchitecture
    if arch.GetFlags &&& M.eRISCV_abi_f ≠ 0 ∨ arch.GetFlags &&& M.eRISCV_abi_d ≠ 0 then
      true
    else
      is_hardfloat
  | none => is_hardfloat

/-- The method `ABISysV_riscv::RegisterIsCalleeSaved` (ABISysV_riscv.cpp, lines 158-171). -/
def RegisterIsCalleeSaved (M : RISCVAbiMasks) (self : ABISysV_riscv)
    (reg_info : Option RegisterInfo) : Bool :=
  match reg_info with
  | none => false
  | some reg_info =>
    let IsCalleeSaved :=
      ((((llvm.StringSwitch.create reg_info.name
        ).Cases ["x1", "x2", "x8", "x9", "x18", "x19", "x20", "x21"] true
        ).Cases ["x22", "x23", "x24", "x25", "x26", "x27"] true
        ).Cases ["f8", "f9", "f18", "f19", "f20", "f21"] (self.IsHardFloatProcess M)
        ).Cases ["f22", "f23", "f24", "f25", "f26", "f27"] (self.IsHardFloatProcess M)
        |>.Default false
    IsCalleeSaved

/-- The method `ABISysV_riscv::RegisterIsVolatile` (ABISysV_riscv.cpp, lines 151-154). -/
def RegisterIsVolatile (M : RISCVAbiMasks) (self : ABISysV_riscv)
    (reg_info : Option RegisterInfo) : Bool :=
  !self.RegisterIsCalleeSaved M reg_info

/-- The method `ABISysV_riscv::GetGenericNum` (ABISysV_riscv.cpp, lines 184-199). -/
def GetGenericNum (name : String) : Nat :=
  ((((((((((((llvm.StringSwitch.create name
    ).Case "pc" LLDB_REGNUM_GENERIC_PC
    ).Case "ra" LLDB_REGNUM_GENERIC_RA
    ).Case "sp" LLDB_REGNUM_GENERIC_SP
    ).Case "fp" LLDB_REGNUM_GENERIC_FP
    ).Case "a0" LLDB_REGNUM_GENERIC_ARG1
    ).Case "a1" LLDB_REGNUM_GENERIC_ARG2
    ).Case "a2" LLDB_REGNUM_GENERIC_ARG3
    ).Case "a3" LLDB_REGNUM_GENERIC_ARG4
    ).Case "a4" LLDB_REGNUM_GENERIC_ARG5
    ).Case "a5" LLDB_REGNUM_GENERIC_ARG6
    ).Case "a6" LLDB_REGNUM_GENERIC_ARG7
    ).Case "a7" LLDB_REGNUM_GENERIC_ARG8
    |>.Default LLDB_INVALID_REGNUM

end ABISysV_riscv

/-- A descriptor that carries nothing but a name: the other fields are what DEFINE_GPR64
gives a general purpose register at offset 0, with no number in any numbering space. The
calling-convention queries read the name only. -/
def lldb_private.RegisterInfo.named (name : String) : lldb_private.RegisterInfo :=
  { name := name, alt_name := none, byte_size := 8, byte_offset := 0,
    encoding := lldb.Encoding.eEncodingUint, format := lldb.Format.eFormatHex,
    kinds := List.replicate lldb.kNumRegisterKinds LLDB_INVALID_REGNUM,
    value_regs := none, invalidate_regs := none,
    dynamic_size_dwarf_expr_bytes := none, dynamic_size_dwarf_len := 0 }

/-! ### Unwind plans (`lldb/Symbol/UnwindPlan.h`) -/

namespace lldb_private

/-- Modelled from the spec: the class UnwindPlan::Row::FAValue of lldb/Symbol/UnwindPlan.h
(not under src/), the spec's "CFA rule = register+signed-offset"; a fresh value is
unspecified. -/
inductive UnwindPlan.Row.FAValue where
  | unspecified
  | isRegisterPlusOffset (reg_num : Nat) (offset : Int)
  deriving DecidableEq, Repr

/-- Modelled from the spec: the method FAValue::SetIsRegisterPlusOffset (UnwindPlan.h, not
under src/): the rule becomes "register reg_num plus offset". -/
def UnwindPlan.Row.FAValue.SetIsRegisterPlusOffset (_self : UnwindPlan.Row.FAValue)
    (reg_num : Nat) (offset : Int) : UnwindPlan.Row.FAValue :=
  .isRegisterPlusOffset reg_num offset

/-- Modelled from the spec: the class UnwindPlan::Row::RegisterLocation of UnwindPlan.h (not
under src/), the spec's per-register location rule "found by evaluating register R"; a
fresh location is unspecified. -/
inductive UnwindPlan.Row.RegisterLocation where
  | unspecified
  | inOtherRegister (reg_num : Nat)
  deriving DecidableEq, Repr

/-- Modelled from the spec: the method RegisterLocation::SetInRegister (UnwindPlan.h, not
under src/). -/
def UnwindPlan.Row.RegisterLocation.SetInRegister (_self : UnwindPlan.Row.RegisterLocation)
    (reg_num : Nat) : UnwindPlan.Row.RegisterLocation :=
  .inOtherRegister reg_num

/-- Modelled from the spec: the class UnwindPlan::Row of UnwindPlan.h (not under src/), the
spec's Row = {valid-from offset, CFA rule, per-register location rule}. The map from
register numbers to locations is a list of pairs kept in increasing order of the key. -/
structure UnwindPlan.Row where
  m_offset : Int
  m_cfa_value : UnwindPlan.Row.FAValue
  m_register_locations : List (Nat × UnwindPlan.Row.RegisterLocation)
  deriving DecidableEq, Repr

namespace UnwindPlan.Row

/-- Modelled from the spec: the constructor `Row()` (UnwindPlan.h, not under src/): offset
0, no CFA rule, no register rule. -/
def create : UnwindPlan.Row :=
  { m_offset := 0, m_cfa_value := .unspecified, m_register_locations := [] }

/-- Modelled from the spec: the method Row::SetOffset (UnwindPlan.h, not under src/). -/
def SetOffset (self : UnwindPlan.Row) (offset : Int) : UnwindPlan.Row :=
  { self with m_offset := offset }

/-- The assignment `m[key] = value` of a std::map held as a list of pairs in increasing
order of the key: the pair with that key is replaced, or a new pair is put in its place. -/
def mapAssign {V : Type} (key : Nat) (value : V) : List (Nat × V) → List (Nat × V)
  | [] => [(key, value)]
  | (k, v) :: rest =>
    if key < k then (key, value) :: (k, v) :: rest
    else if key = k then (key, value) :: rest
    else (k, v) :: mapAssign key value rest

/-- Modelled from the spec: the method Row::SetRegisterLocationToRegister (UnwindPlan.h and
UnwindPlan.cpp, not under src/): unless the register has a rule already and can_replace is
false, its rule becomes "found in register other_reg_num". -/
def SetRegisterLocationToRegister (self : UnwindPlan.Row) (reg_num other_reg_num : Nat)
    (can_replace : Bool) : Bool × UnwindPlan.Row :=
  if !can_replace ∧ (self.m_register_locations.lookup reg_num).isSome then
    (false, self)
  else
    let reg_loc := UnwindPlan.Row.RegisterLocation.unspecified.SetInRegister other_reg_num
    (true, { self with
      m_register_locations := mapAssign reg_num reg_loc self.m_register_locations })

end UnwindPlan.Row

/-- Modelled from the spec: the class UnwindPlan of lldb/Symbol/UnwindPlan.h (not under
src/): "ordered sequence of Rows", the numbering space its register numbers are in, "a
source label and two trust flags: sourced-from-compiler, valid-at-all-instructions". -/
structure UnwindPlan where
  m_row_list : List UnwindPlan.Row
  m_register_kind : lldb.RegisterKind
  m_source_name : String
  m_plan_is_sourced_from_compiler : LazyBool
  m_plan_is_valid_at_all_instruction_locations : LazyBool
  deriving DecidableEq, Repr

namespace UnwindPlan

/-- Modelled from the spec: the method UnwindPlan::Clear (UnwindPlan.h, not under src/):
the rows are dropped, the register kind goes back to DWARF, the source label is emptied
and both trust flags go back to "not yet decided". -/
def Clear (_self : UnwindPlan) : UnwindPlan :=
  { m_row_list := [], m_register_kind := lldb.RegisterKind.eRegisterKindDWARF,
    m_source_name := "",
    m_plan_is_sourced_from_compiler := LazyBool.eLazyBoolCalculate,
    m_plan_is_valid_at_all_instruction_locations := LazyBool.eLazyBoolCalculate }

/-- Modelled from the spec: the method UnwindPlan::SetRegisterKind (not under src/). -/
def SetRegisterKind (self : UnwindPlan) (kind : lldb.RegisterKind) : UnwindPlan :=
  { self with m_register_kind := kind }

/-- Modelled from the spec: the method UnwindPlan::AppendRow (UnwindPlan.cpp, not under
src/): the row is added at the end of the sequence, or takes the place of the last row
when that one starts at the same offset. -/
def AppendRow (self : UnwindPlan) (row : UnwindPlan.Row) : UnwindPlan :=
  match self.m_row_list.getLast? with
  | none => { self with m_row_list := self.m_row_list ++ [row] }
  | some back =>
    if back.m_offset ≠ row.m_offset then
      { self with m_row_list := self.m_row_list ++ [row] }
    else
      { self with m_row_list := self.m_row_list.dropLast ++ [row] }

/-- Modelled from the spec: the method UnwindPlan::SetSourceName (not under src/). -/
def SetSourceName (self : UnwindPlan) (source : String) : UnwindPlan :=
  { self with m_source_name := source }

/-- Modelled from the spec: the method UnwindPlan::SetSourcedFromCompiler (not under
src/). -/
def SetSourcedFromCompiler (self : UnwindPlan) (from_compiler : LazyBool) : UnwindPlan :=
  { self with m_plan_is_sourced_from_compiler := from_compiler }

/-- Modelled from the spec: the method UnwindPlan::SetUnwindPlanValidAtAllInstructions (not
under src/). -/
def SetUnwindPlanValidAtAllInstructions (self : UnwindPlan) (valid_at_all_insn : LazyBool) :
    UnwindPlan :=
  { self with m_plan_is_valid_at_all_instruction_locations := valid_at_all_insn }

end UnwindPlan

end lldb_private

namespace ABISysV_riscv

/-- The method `ABISysV_riscv::CreateFunctionEntryUnwindPlan` (ABISysV_riscv.cpp, lines
105-125): the result and the plan it leaves in `unwind_plan`. -/
def CreateFunctionEntryUnwindPlan (unwind_plan : UnwindPlan) : Bool × UnwindPlan :=
  let unwind_plan := unwind_plan.Clear
  let unwind_plan := unwind_plan.SetRegisterKind lldb.RegisterKind.eRegisterKindGeneric
  let pc_reg_num := LLDB_REGNUM_GENERIC_PC
  let sp_reg_num := LLDB_REGNUM_GENERIC_SP
  let ra_reg_num := LLDB_REGNUM_GENERIC_RA
  let row := UnwindPlan.Row.create
  -- Define CFA as the stack pointer
  let row := { row with m_cfa_value := row.m_cfa_value.SetIsRegisterPlusOffset sp_reg_num 0 }
  -- Previous frames pc is in ra
  let row := (row.SetRegisterLocationToRegister pc_reg_num ra_reg_num true).2
  let unwind_plan := unwind_plan.AppendRow row
  let unwind_plan := unwind_plan.SetSourceName "riscv function-entry unwind plan"
  let unwind_plan := unwind_plan.SetSourcedFromCompiler LazyBool.eLazyBoolNo
  (true, unwind_plan)

/-- The method `ABISysV_riscv::CreateDefaultUnwindPlan` (ABISysV_riscv.cpp, lines
127-149): the result and the plan it leaves in `unwind_plan`. -/
def CreateDefaultUnwindPlan (unwind_plan : UnwindPlan) : Bool × UnwindPlan :=
  let unwind_plan := unwind_plan.Clear
  let unwind_plan := unwind_plan.SetRegisterKind lldb.RegisterKind.eRegisterKindGeneric
  let pc_reg_num := LLDB_REGNUM_GENERIC_PC
  let sp_reg_num := LLDB_REGNUM_GENERIC_SP
  let ra_reg_num := LLDB_REGNUM_GENERIC_RA
  let row := UnwindPlan.Row.create
  -- Define the CFA as the current stack pointer.
  let row := { row with m_cfa_value := row.m_cfa_value.SetIsRegisterPlusOffset sp_reg_num 0 }
  let row := row.SetOffset 0
  -- The previous frames pc is stored in ra.
  let row := (row.SetRegisterLocationToRegister pc_reg_num ra_reg_num true).2
  let unwind_plan := unwind_plan.AppendRow row
  let unwind_plan := unwind_plan.SetSourceName "riscv default unwind plan"
  let unwind_plan := unwind_plan.SetSourcedFromCompiler LazyBool.eLazyBoolNo
  let unwind_plan := unwind_plan.SetUnwindPlanValidAtAllInstructions LazyBool.eLazyBoolNo
  (true, unwind_plan)

end ABISysV_riscv

/-! ### DWARF register numbers (`source/Utility/RISCV64_DWARF_Registers.h`) -/

namespace riscv64_dwarf

/-- The enumerator `x0 = 0` of the enum in namespace riscv64_dwarf. -/
def x0 : Nat := 0

/-- The enumerator `x1`: one more than the enumerator before it. -/
def x1 : Nat := x0 + 1

/-- The enumerator `x2`: one more than the enumerator before it. -/
def x2 : Nat := x1 + 1

/-- The enumerator `x3`: one more than the enumerator before it. -/
def x3 : Nat := x2 + 1

/-- The enumerator `x4`: one more than the enumerator before it. -/
def x4 : Nat := x3 + 1

/-- The enumerator `x5`: one more than the enumerator before it. -/
def x5 : Nat := x4 + 1

/-- The enumerator `x6`: one more than the enumerator before it. -/
def x6 : Nat := x5 + 1

/-- The enumerator `x7`: one more than the enumerator before it. -/
def x7 : Nat := x6 + 1

/-- The enumerator `x8`: one more than the enumerator before it. -/
def x8 : Nat := x7 + 1

/-- The enumerator `x9`: one more than the enumerator before it. -/
def x9 : Nat := x8 + 1

/-- The enumerator `x10`: one more than the enumerator before it. -/
def x10 : Nat := x9 + 1

/-- The enumerator `x11`: one more than the enumerator before it. -/
def x11 : Nat := x10 + 1

/-- The enumerator `x12`: one more than the enumerator before it. -/
def x12 : Nat := x11 + 1

/-- The enumerator `x13`: one more than the enumerator before it. -/
def x13 : Nat := x12 + 1

/-- The enumerator `x14`: one more than the enumerator before it. -/
def x14 : Nat := x13 + 1

/-- The enumerator `x15`: one more than the enumerator before it. -/
def x15 : Nat := x14 + 1

/-- The enumerator `x16`: one more than the enumerator before it. -/
def x16 : Nat := x15 + 1

/-- The enumerator `x17`: one more than the enumerator before it. -/
def x17 : Nat := x16 + 1

/-- The enumerator `x18`: one more than the enumerator before it. -/
def x18 : Nat := x17 + 1

/-- The enumerator `x19`: one more than the enumerator before it. -/
def x19 : Nat := x18 + 1

/-- The enumerator `x20`: one more than the enumerator before it. -/
def x20 : Nat := x19 + 1

/-- The enumerator `x21`: one more than the enumerator before it. -/
def x21 : Nat := x20 + 1

/-- The enumerator `x22`: one more than the enumerator before it. -/
def x22 : Nat := x21 + 1

/-- The enumerator `x23`: one more than the enumerator before it. -/
def x23 : Nat := x22 + 1

/-- The enumerator `x24`: one more than the enumerator before it. -/
def x24 : Nat := x23 + 1

/-- The enumerator `x25`: one more than the enumerator before it. -/
def x25 : Nat := x24 + 1

/-- The enumerator `x26`: one more than the enumerator before it. -/
def x26 : Nat := x25 + 1

/-- The enumerator `x27`: one more than the enumerator before it. -/
def x27 : Nat := x26 + 1

/-- The enumerator `x28`: one more than the enumerator before it. -/
def x28 : Nat := x27 + 1

/-- The enumerator `x29`: one more than the enumerator before it. -/
def x29 : Nat := x28 + 1

/-- The enumerator `x30`: one more than the enumerator before it. -/
def x30 : Nat := x29 + 1

/-- The enumerator `x31`: one more than the enumerator before it. -/
def x31 : Nat := x30 + 1

/-- The enumerator `ra = x1`. -/
def ra : Nat := x1

/-- The enumerator `sp = x2`. -/
def sp : Nat := x2

/-- The enumerator `fp = x8`. -/
def fp : Nat := x8

end riscv64_dwarf

/-! ### The register catalog (`source/Plugins/Process/Utility/RegisterInfos_riscv64.h`) -/

/-- The enumerator `gpr_x0 = 0` of the enum of RegisterInfos_riscv64.h. -/
def gpr_x0 : Nat := 0

/-- The enumerator `gpr_x1`: one more than the enumerator before it. -/
def gpr_x1 : Nat := gpr_x0 + 1

/-- The enumerator `gpr_x2`: one more than the enumerator before it. -/
def gpr_x2 : Nat := gpr_x1 + 1

/-- The enumerator `gpr_x3`: one more than the enumerator before it. -/
def gpr_x3 : Nat := gpr_x2 + 1

/-- The enumerator `gpr_x4`: one more than the enumerator before it. -/
def gpr_x4 : Nat := gpr_x3 + 1

/-- The enumerator `gpr_x5`: one more than the enumerator before it. -/
def gpr_x5 : Nat := gpr_x4 + 1

/-- The enumerator `gpr_x6`: one more than the enumerator before it. -/
def gpr_x6 : Nat := gpr_x5 + 1

/-- The enumerator `gpr_x7`: one more than the enumerator before it. -/
def gpr_x7 : Nat := gpr_x6 + 1

/-- The enumerator `gpr_x8`: one more than the enumerator before it. -/
def gpr_x8 : Nat := gpr_x7 + 1

/-- The enumerator `gpr_x9`: one more than the enumerator before it. -/
def gpr_x9 : Nat := gpr_x8 + 1

/-- The enumerator `gpr_x10`: one more than the enumerator before it. -/
def gpr_x10 : Nat := gpr_x9 + 1

/-- The enumerator `gpr_x11`: one more than the enumerator before it. -/
def gpr_x11 : Nat := gpr_x10 + 1

/-- The enumerator `gpr_x12`: one more than the enumerator before it. -/
def gpr_x12 : Nat := gpr_x11 + 1

/-- The enumerator `gpr_x13`: one more than the enumerator before it. -/
def gpr_x13 : Nat := gpr_x12 + 1

/-- The enumerator `gpr_x14`: one more than the enumerator before it. -/
def gpr_x14 : Nat := gpr_x13 + 1

/-- The enumerator `gpr_x15`: one more than the enumerator before it. -/
def gpr_x15 : Nat := gpr_x14 + 1

/-- The enumerator `gpr_x16`: one more than the enumerator before it. -/
def gpr_x16 : Nat := gpr_x15 + 1

/-- The enumerator `gpr_x17`: one more than the enumerator before it. -/
def gpr_x17 : Nat := gpr_x16 + 1

/-- The enumerator `gpr_x18`: one more than the enumerator before it. -/
def gpr_x18 : Nat := gpr_x17 + 1

/-- The enumerator `gpr_x19`: one more than the enumerator before it. -/
def gpr_x19 : Nat := gpr_x18 + 1

/-- The enumerator `gpr_x20`: one more than the enumerator before it. -/
def gpr_x20 : Nat := gpr_x19 + 1

/-- The enumerator `gpr_x21`: one more than the enumerator before it. -/
def gpr_x21 : Nat := gpr_x20 + 1

/-- The enumerator `gpr_x22`: one more than the enumerator before it. -/
def gpr_x22 : Nat := gpr_x21 + 1

/-- The enumerator `gpr_x23`: one more than the enumerator before it. -/
def gpr_x23 : Nat := gpr_x22 + 1

/-- The enumerator `gpr_x24`: one more than the enumerator before it. -/
def gpr_x24 : Nat := gpr_x23 + 1

/-- The enumerator `gpr_x25`: one more than the enumerator before it. -/
def gpr_x25 : Nat := gpr_x24 + 1

/-- The enumerator `gpr_x26`: one more than the enumerator before it. -/
def gpr_x26 : Nat := gpr_x25 + 1

/-- The enumerator `gpr_x27`: one more than the enumerator before it. -/
def gpr_x27 : Nat := gpr_x26 + 1

/-- The enumerator `gpr_x28`: one more than the enumerator before it. -/
def gpr_x28 : Nat := gpr_x27 + 1

/-- The enumerator `gpr_x29`: one more than the enumerator before it. -/
def gpr_x29 : Nat := gpr_x28 + 1

/-- The enumerator `gpr_x30`: one more than the enumerator before it. -/
def gpr_x30 : Nat := gpr_x29 + 1

/-- The enumerator `gpr_x31`: one more than the enumerator before it. -/
def gpr_x31 : Nat := gpr_x30 + 1

/-- The enumerator `gpr_ra = gpr_x1`. -/
def gpr_ra : Nat := gpr_x1

/-- The enumerator `gpr_sp = gpr_x2`. -/
def gpr_sp : Nat := gpr_x2

/-- The enumerator `gpr_fp = gpr_x8`. -/
def gpr_fp : Nat := gpr_x8

/-- The enumerator `k_num_registers`, which closes the enum: one more than the enumerator
before it, which is `gpr_fp`. -/
def k_num_registers : Nat := gpr_fp + 1

/-- The macro `GPR_OFFSET(idx)` of RegisterInfoPOSIX_riscv64.cpp, line 17: `((idx)*8)`. -/
def GPR_OFFSET (idx : Nat) : Nat := idx * 8

/-- The macro `MISC_KIND(reg, type, generic_kind)` (RegisterInfos_riscv64.h, lines 93-97):
the braced list `{ riscv64_dwarf::reg, generic_kind, LLDB_INVALID_REGNUM, type##_##reg }`.
The two names the preprocessor makes of the token `reg` are passed as `dwarf_reg`
(`riscv64_dwarf::reg`) and `type_reg` (`type##_##reg`). -/
def MISC_KIND (dwarf_reg type_reg generic_kind : Nat) : List Nat :=
  [dwarf_reg, generic_kind, LLDB_INVALID_REGNUM, type_reg]

/-- The macro `GPR64_KIND(reg, generic_kind)` (line 100): `MISC_KIND(reg, gpr, generic_kind)`,
so `type_reg` is `gpr_##reg`. -/
def GPR64_KIND (dwarf_reg gpr_reg generic_kind : Nat) : List Nat :=
  MISC_KIND dwarf_reg gpr_reg generic_kind

/-- The initialisation of an array `uint32_t a[n]` from a braced list of at most `n`
values in C++: the elements the list does not reach are zero. -/
def aggregateInit (n : Nat) (init : List Nat) : List Nat :=
  init ++ List.replicate (n - init.length) 0

/-- The macro `DEFINE_GPR64(reg, generic_kind)` (RegisterInfos_riscv64.h, lines 103-108).
The token `reg` is passed as what the preprocessor makes of it: its spelling `#reg`, the
enumerator `gpr_##reg` and the enumerator `riscv64_dwarf::reg`. The braced list of
GPR64_KIND initialises the member `kinds`, an array of kNumRegisterKinds numbers. -/
def DEFINE_GPR64 (reg : String) (gpr_reg dwarf_reg generic_kind : Nat) : RegisterInfo :=
  { name := reg, alt_name := none, byte_size := 8, byte_offset := GPR_OFFSET gpr_reg,
    encoding := lldb.Encoding.eEncodingUint, format := lldb.Format.eFormatHex,
    kinds := aggregateInit lldb.kNumRegisterKinds (GPR64_KIND dwarf_reg gpr_reg generic_kind),
    value_regs := none, invalidate_regs := none,
    dynamic_size_dwarf_expr_bytes := none, dynamic_size_dwarf_len := 0 }

/-- The macro `DEFINE_GPR64_ALT(reg, alt, generic_kind)` (RegisterInfos_riscv64.h, lines
111-116): as DEFINE_GPR64, with the spelling `#alt` as the alternate name. -/
def DEFINE_GPR64_ALT (reg alt : String) (gpr_reg dwarf_reg generic_kind : Nat) :
    RegisterInfo :=
  { name := reg, alt_name := some alt, byte_size := 8, byte_offset := GPR_OFFSET gpr_reg,
    encoding := lldb.Encoding.eEncodingUint, format := lldb.Format.eFormatHex,
    kinds := aggregateInit lldb.kNumRegisterKinds (GPR64_KIND dwarf_reg gpr_reg generic_kind),
    value_regs := none, invalidate_regs := none,
    dynamic_size_dwarf_expr_bytes := none, dynamic_size_dwarf_len := 0 }

/-- The table `g_register_infos_riscv64_le` (RegisterInfos_riscv64.h, lines 126-161). -/
def g_register_infos_riscv64_le : List RegisterInfo := [
  DEFINE_GPR64 "x0" gpr_x0 riscv64_dwarf.x0 LLDB_INVALID_REGNUM,
  DEFINE_GPR64_ALT "ra" "x1" gpr_ra riscv64_dwarf.ra LLDB_REGNUM_GENERIC_RA,
  DEFINE_GPR64_ALT "sp" "x2" gpr_sp riscv64_dwarf.sp LLDB_REGNUM_GENERIC_SP,
  DEFINE_GPR64 "x3" gpr_x3 riscv64_dwarf.x3 LLDB_INVALID_REGNUM,
  DEFINE_GPR64 "x4" gpr_x4 riscv64_dwarf.x4 LLDB_INVALID_REGNUM,
  DEFINE_GPR64 "x5" gpr_x5 riscv64_dwarf.x5 LLDB_INVALID_REGNUM,
  DEFINE_GPR64 "x6" gpr_x6 riscv64_dwarf.x6 LLDB_INVALID_REGNUM,
  DEFINE_GPR64 "x7" gpr_x7 riscv64_dwarf.x7 LLDB_INVALID_REGNUM,
  DEFINE_GPR64_ALT "fp" "x8" gpr_fp riscv64_dwarf.fp LLDB_REGNUM_GENERIC_FP,
  DEFINE_GPR64 "x9" gpr_x9 riscv64_dwarf.x9 LLDB_INVALID_REGNUM,
  DEFINE_GPR64 "x10" gpr_x10 riscv64_dwarf.x10 LLDB_REGNUM_GENERIC_ARG1,
  DEFINE_GPR64 "x11" gpr_x11 riscv64_dwarf.x11 LLDB_REGNUM_GENERIC_ARG2,
  DEFINE_GPR64 "x12" gpr_x12 riscv64_dwarf.x12 LLDB_REGNUM_GENERIC_ARG3,
  DEFINE_GPR64 "x13" gpr_x13 riscv64_dwarf.x13 LLDB_REGNUM_GENERIC_ARG4,
  DEFINE_GPR64 "x14" gpr_x14 riscv64_dwarf.x14 LLDB_REGNUM_GENERIC_ARG5,
  DEFINE_GPR64 "x15" gpr_x15 riscv64_dwarf.x15 LLDB_REGNUM_GENERIC_ARG6,
  DEFINE_GPR64 "x16" gpr_x16 riscv64_dwarf.x16 LLDB_REGNUM_GENERIC_ARG7,
  DEFINE_GPR64 "x17" gpr_x17 riscv64_dwarf.x17 LLDB_REGNUM_GENERIC_ARG8,
  DEFINE_GPR64 "x18" gpr_x18 riscv64_dwarf.x18 LLDB_INVALID_REGNUM,
  DEFINE_GPR64 "x19" gpr_x19 riscv64_dwarf.x19 LLDB_INVALID_REGNUM,
  DEFINE_GPR64 "x20" gpr_x20 riscv64_dwarf.x20 LLDB_INVALID_REGNUM,
  DEFINE_GPR64 "x21" gpr_x21 riscv64_dwarf.x21 LLDB_INVALID_REGNUM,
  DEFINE_GPR64 "x22" gpr_x22 riscv64_dwarf.x22 LLDB_INVALID_REGNUM,
  DEFINE_GPR64 "x23" gpr_x23 riscv64_dwarf.x23 LLDB_INVALID_REGNUM,
  DEFINE_GPR64 "x24" gpr_x24 riscv64_dwarf.x24 LLDB_INVALID_REGNUM,
  DEFINE_GPR64 "x25" gpr_x25 riscv64_dwarf.x25 LLDB_INVALID_REGNUM,
  DEFINE_GPR64 "x26" gpr_x26 riscv64_dwarf.x26 LLDB_INVALID_REGNUM,
  DEFINE_GPR64 "x27" gpr_x27 riscv64_dwarf.x27 LLDB_INVALID_REGNUM,
  DEFINE_GPR64 "x28" gpr_x28 riscv64_dwarf.x28 LLDB_INVALID_REGNUM,
  DEFINE_GPR64 "x29" gpr_x29 riscv64_dwarf.x29 LLDB_INVALID_REGNUM,
  DEFINE_GPR64 "x30" gpr_x30 riscv64_dwarf.x30 LLDB_INVALID_REGNUM,
  DEFINE_GPR64 "x31" gpr_x31 riscv64_dwarf.x31 LLDB_INVALID_REGNUM]

/-! ### Register sets (`source/Plugins/Process/Utility/RegisterInfoPOSIX_riscv64.cpp`) -/

/-- The enumerator `k_num_gpr_registers = gpr_x31 - gpr_x0 + 1` (line 67). -/
def k_num_gpr_registers : Nat := gpr_x31 - gpr_x0 + 1

/-- The enumerator `k_num_register_sets = 1` (line 68). -/
def k_num_register_sets : Nat := 1

/-- The array `g_gpr_regnums_riscv64` (RegisterInfoPOSIX_riscv64.cpp, lines 72-81), with
its terminator. -/
def g_gpr_regnums_riscv64 : List Nat := [
  gpr_x0, gpr_ra, gpr_sp, gpr_x3,
  gpr_x4, gpr_x5, gpr_x6, gpr_x7,
  gpr_fp, gpr_x9, gpr_x10, gpr_x11,
  gpr_x12, gpr_x13, gpr_x14, gpr_x15,
  gpr_x16, gpr_x17, gpr_x18, gpr_x19,
  gpr_x20, gpr_x21, gpr_x22, gpr_x23,
  gpr_x24, gpr_x25, gpr_x26, gpr_x27,
  gpr_x28, gpr_x29, gpr_x30, gpr_x31,
  LLDB_INVALID_REGNUM]

/-- The array `g_reg_sets_riscv64[k_num_register_sets]` (lines 88-90). -/
def g_reg_sets_riscv64 : List RegisterSet := [
  { name := "General Purpose Registers", short_name := "gpr",
    num_registers := k_num_gpr_registers, registers := g_gpr_regnums_riscv64 }]

/-- A data member of a C struct: its name, the size in bytes of one element and the number
of elements (1 for a member that is not an array). -/
structure StructMember where
  name : String
  elem_size : Nat
  count : Nat
  deriving DecidableEq, Repr

/-- The `sizeof` of a struct declared between LLVM_PACKED_START and LLVM_PACKED_END: the
members follow one another with no padding. -/
def sizeofPacked (members : List StructMember) : Nat :=
  (members.map (fun m => m.elem_size * m.count)).sum

namespace RegisterInfoPOSIX_riscv64

/-- The enumerator `GPRegSet = 0` (RegisterInfoPOSIX_riscv64.h, line 20). -/
def GPRegSet : Nat := 0

/-- The packed struct `RegisterInfoPOSIX_riscv64::GPR` (RegisterInfoPOSIX_riscv64.h, lines
22-33); every member is made of `uint64_t`, 8 bytes. -/
def GPR : List StructMember := [
  { name := "zero", elem_size := 8, count := 1 },
  { name := "ra", elem_size := 8, count := 1 },
  { name := "sp", elem_size := 8, count := 1 },
  { name := "gp", elem_size := 8, count := 1 },
  { name := "tp", elem_size := 8, count := 1 },
  { name := "t", elem_size := 8, count := 7 },
  { name := "s", elem_size := 8, count := 12 },
  { name := "a", elem_size := 8, count := 8 }]

/-- The method `GetRegisterCount` (RegisterInfoPOSIX_riscv64.cpp, lines 112-114). -/
def GetRegisterCount : Nat := k_num_gpr_registers

/-- The method `GetGPRSize` (lines 116-118): `sizeof(struct RegisterInfoPOSIX_riscv64::GPR)`. -/
def GetGPRSize : Nat := sizeofPacked GPR

/-- The method `GetRegisterSetCount` (RegisterInfoPOSIX_riscv64.cpp, lines 129-131). -/
def GetRegisterSetCount : Nat := k_num_register_sets - 1

/-- The method `GetRegisterSetFromRegisterIndex` (RegisterInfoPOSIX_riscv64.cpp, lines
133-138); the result is a `size_t`, into which the 32-bit LLDB_INVALID_REGNUM goes
unchanged. -/
def GetRegisterSetFromRegisterIndex (reg_index : Nat) : Nat :=
  if reg_index ≤ gpr_x31 then GPRegSet else LLDB_INVALID_REGNUM

/-- The method `GetRegisterSet` (RegisterInfoPOSIX_riscv64.cpp, lines 140-145): the address
of the entry of g_reg_sets_riscv64 at `set_index`, or a null pointer. -/
def GetRegisterSet (set_index : Nat) : Option RegisterSet :=
  if set_index < GetRegisterSetCount then g_reg_sets_riscv64[set_index]? else none

end RegisterInfoPOSIX_riscv64

/-! ### DWARF register numbers of the ABI (`ABISysV_riscv.cpp`, lines 38-103) -/

namespace riscv_dwarf_regnums

/-- The enumerator `dwarf_x0 = 0` of enum riscv_dwarf_regnums. -/
def dwarf_x0 : Nat := 0

/-- The enumerator `dwarf_x1`: one more than the enumerator before it. -/
def dwarf_x1 : Nat := dwarf_x0 + 1

/-- The enumerator `dwarf_x2`: one more than the enumerator before it. -/
def dwarf_x2 : Nat := dwarf_x1 + 1

/-- The enumerator `dwarf_x3`: one more than the enumerator before it. -/
def dwarf_x3 : Nat := dwarf_x2 + 1

/-- The enumerator `dwarf_x4`: one more than the enumerator before it. -/
def dwarf_x4 : Nat := dwarf_x3 + 1

/-- The enumerator `dwarf_x5`: one more than the enumerator before it. -/
def dwarf_x5 : Nat := dwarf_x4 + 1

/-- The enumerator `dwarf_x6`: one more than the enumerator before it. -/
def dwarf_x6 : Nat := dwarf_x5 + 1

/-- The enumerator `dwarf_x7`: one more than the enumerator before it. -/
def dwarf_x7 : Nat := dwarf_x6 + 1

/-- The enumerator `dwarf_x8`: one more than the enumerator before it. -/
def dwarf_x8 : Nat := dwarf_x7 + 1

/-- The enumerator `dwarf_x9`: one more than the enumerator before it. -/
def dwarf_x9 : Nat := dwarf_x8 + 1

/-- The enumerator `dwarf_x10`: one more than the enumerator before it. -/
def dwarf_x10 : Nat := dwarf_x9 + 1

/-- The enumerator `dwarf_x11`: one more than the enumerator before it. -/
def dwarf_x11 : Nat := dwarf_x10 + 1

/-- The enumerator `dwarf_x12`: one more than the enumerator before it. -/
def dwarf_x12 : Nat := dwarf_x11 + 1

/-- The enumerator `dwarf_x13`: one more than the enumerator before it. -/
def dwarf_x13 : Nat := dwarf_x12 + 1

/-- The enumerator `dwarf_x14`: one more than the enumerator before it. -/
def dwarf_x14 : Nat := dwarf_x13 + 1

/-- The enumerator `dwarf_x15`: one more than the enumerator before it. -/
def dwarf_x15 : Nat := dwarf_x14 + 1

/-- The enumerator `dwarf_x16`: one more than the enumerator before it. -/
def dwarf_x16 : Nat := dwarf_x15 + 1

/-- The enumerator `dwarf_x17`: one more than the enumerator before it. -/
def dwarf_x17 : Nat := dwarf_x16 + 1

/-- The enumerator `dwarf_x18`: one more than the enumerator before it. -/
def dwarf_x18 : Nat := dwarf_x17 + 1

/-- The enumerator `dwarf_x19`: one more than the enumerator before it. -/
def dwarf_x19 : Nat := dwarf_x18 + 1

/-- The enumerator `dwarf_x20`: one more than the enumerator before it. -/
def dwarf_x20 : Nat := dwarf_x19 + 1

/-- The enumerator `dwarf_x21`: one more than the enumerator before it. -/
def dwarf_x21 : Nat := dwarf_x20 + 1

/-- The enumerator `dwarf_x22`: one more than the enumerator before it. -/
def dwarf_x22 : Nat := dwarf_x21 + 1

/-- The enumerator `dwarf_x23`: one more than the enumerator before it. -/
def dwarf_x23 : Nat := dwarf_x22 + 1

/-- The enumerator `dwarf_x24`: one more than the enumerator before it. -/
def dwarf_x24 : Nat := dwarf_x23 + 1

/-- The enumerator `dwarf_x25`: one more than the enumerator before it. -/
def dwarf_x25 : Nat := dwarf_x24 + 1

/-- The enumerator `dwarf_x26`: one more than the enumerator before it. -/
def dwarf_x26 : Nat := dwarf_x25 + 1

/-- The enumerator `dwarf_x27`: one more than the enumerator before it. -/
def dwarf_x27 : Nat := dwarf_x26 + 1

/-- The enumerator `dwarf_x28`: one more than the enumerator before it. -/
def dwarf_x28 : Nat := dwarf_x27 + 1

/-- The enumerator `dwarf_x29`: one more than the enumerator before it. -/
def dwarf_x29 : Nat := dwarf_x28 + 1

/-- The enumerator `dwarf_x30`: one more than the enumerator before it. -/
def dwarf_x30 : Nat := dwarf_x29 + 1

/-- The enumerator `dwarf_x31`: one more than the enumerator before it. -/
def dwarf_x31 : Nat := dwarf_x30 + 1

/-- The enumerator `dwarf_f0 = 32`. -/
def dwarf_f0 : Nat := 32

/-- The enumerator `dwarf_f1`: one more than the enumerator before it. -/
def dwarf_f1 : Nat := dwarf_f0 + 1

/-- The enumerator `dwarf_f2`: one more than the enumerator before it. -/
def dwarf_f2 : Nat := dwarf_f1 + 1

/-- The enumerator `dwarf_f3`: one more than the enumerator before it. -/
def dwarf_f3 : Nat := dwarf_f2 + 1

/-- The enumerator `dwarf_f4`: one more than the enumerator before it. -/
def dwarf_f4 : Nat := dwarf_f3 + 1

/-- The enumerator `dwarf_f5`: one more than the enumerator before it. -/
def dwarf_f5 : Nat := dwarf_f4 + 1

/-- The enumerator `dwarf_f6`: one more than the enumerator before it. -/
def dwarf_f6 : Nat := dwarf_f5 + 1

/-- The enumerator `dwarf_f7`: one more than the enumerator before it. -/
def dwarf_f7 : Nat := dwarf_f6 + 1

/-- The enumerator `dwarf_f8`: one more than the enumerator before it. -/
def dwarf_f8 : Nat := dwarf_f7 + 1

/-- The enumerator `dwarf_f9`: one more than the enumerator before it. -/
def dwarf_f9 : Nat := dwarf_f8 + 1

/-- The enumerator `dwarf_f10`: one more than the enumerator before it. -/
def dwarf_f10 : Nat := dwarf_f9 + 1

/-- The enumerator `dwarf_f11`: one more than the enumerator before it. -/
def dwarf_f11 : Nat := dwarf_f10 + 1

/-- The enumerator `dwarf_f12`: one more than the enumerator before it. -/
def dwarf_f12 : Nat := dwarf_f11 + 1

/-- The enumerator `dwarf_f13`: one more than the enumerator before it. -/
def dwarf_f13 : Nat := dwarf_f12 + 1

/-- The enumerator `dwarf_f14`: one more than the enumerator before it. -/
def dwarf_f14 : Nat := dwarf_f13 + 1

/-- The enumerator `dwarf_f15`: one more than the enumerator before it. -/
def dwarf_f15 : Nat := dwarf_f14 + 1

/-- The enumerator `dwarf_f16`: one more than the enumerator before it. -/
def dwarf_f16 : Nat := dwarf_f15 + 1

/-- The enumerator `dwarf_f17`: one more than the enumerator before it. -/
def dwarf_f17 : Nat := dwarf_f16 + 1

/-- The enumerator `dwarf_f18`: one more than the enumerator before it. -/
def dwarf_f18 : Nat := dwarf_f17 + 1

/-- The enumerator `dwarf_f19`: one more than the enumerator before it. -/
def dwarf_f19 : Nat := dwarf_f18 + 1

/-- The enumerator `dwarf_f20`: one more than the enumerator before it. -/
def dwarf_f20 : Nat := dwarf_f19 + 1

/-- The enumerator `dwarf_f21`: one more than the enumerator before it. -/
def dwarf_f21 : Nat := dwarf_f20 + 1

/-- The enumerator `dwarf_f22`: one more than the enumerator before it. -/
def dwarf_f22 : Nat := dwarf_f21 + 1

/-- The enumerator `dwarf_f23`: one more than the enumerator before it. -/
def dwarf_f23 : Nat := dwarf_f22 + 1

/-- The enumerator `dwarf_f24`: one more than the enumerator before it. -/
def dwarf_f24 : Nat := dwarf_f23 + 1

/-- The enumerator `dwarf_f25`: one more than the enumerator before it. -/
def dwarf_f25 : Nat := dwarf_f24 + 1

/-- The enumerator `dwarf_f26`: one more than the enumerator before it. -/
def dwarf_f26 : Nat := dwarf_f25 + 1

/-- The enumerator `dwarf_f27`: one more than the enumerator before it. -/
def dwarf_f27 : Nat := dwarf_f26 + 1

/-- The enumerator `dwarf_f28`: one more than the enumerator before it. -/
def dwarf_f28 : Nat := dwarf_f27 + 1

/-- The enumerator `dwarf_f29`: one more than the enumerator before it. -/
def dwarf_f29 : Nat := dwarf_f28 + 1

/-- The enumerator `dwarf_f30`: one more than the enumerator before it. -/
def dwarf_f30 : Nat := dwarf_f29 + 1

/-- The enumerator `dwarf_f31`: one more than the enumerator before it. -/
def dwarf_f31 : Nat := dwarf_f30 + 1

end riscv_dwarf_regnums

/-! ### Frame numbers and factory of the ABI (`ABISysV_riscv.cpp`) -/

namespace ABISysV_riscv

/-- The method `ABISysV_riscv::GetEHAndDWARFNums` (ABISysV_riscv.cpp, lines 173-182): the
pair (exception-frame number, DWARF number) of a register name. The method of the base
class, `MCBasedABI::GetEHAndDWARFNums` (lldb/Target/ABI.h, not under src/), is the
parameter `MCBasedABI_GetEHAndDWARFNums`. -/
def GetEHAndDWARFNums (MCBasedABI_GetEHAndDWARFNums : String → Nat × Nat) (name : String) :
    Nat × Nat :=
  if name = "ra" then
    (LLDB_INVALID_REGNUM, riscv_dwarf_regnums.dwarf_x1)
  else if name = "sp" then
    (LLDB_INVALID_REGNUM, riscv_dwarf_regnums.dwarf_x2)
  else if name = "fp" then
    (LLDB_INVALID_REGNUM, riscv_dwarf_regnums.dwarf_x8)
  else
    MCBasedABI_GetEHAndDWARFNums name

/-- An ABISysV_riscv object as `CreateInstance` constructs it, by the three arguments it
hands to the constructor of the class (declared in ABISysV_riscv.h, not under src/): the
process, the MC register information and the flag that says the target is 64-bit. -/
structure Instance (MCRegisterInfo : Type) extends ABISysV_riscv where
  info_up : MCRegisterInfo
  is64 : Bool

/-- The function `ABISysV_riscv::CreateInstance` (ABISysV_riscv.cpp, lines 213-223): an ABI
object, or the empty `ABISP()`. The helper `MakeMCRegisterInfo` (lldb/Target/ABI.h, not
under src/) is a parameter. -/
def CreateInstance {MCRegisterInfo : Type} (MakeMCRegisterInfo : ArchSpec → MCRegisterInfo)
    (process_sp : Option Process) (arch : ArchSpec) : Option (Instance MCRegisterInfo) :=
  if arch.GetTriple.getArch = llvm.Triple.ArchType.riscv32 ∨
      arch.GetTriple.getArch = llvm.Triple.ArchType.riscv64 then
    some { m_process := process_sp, info_up := MakeMCRegisterInfo arch,
           is64 := decide (arch.GetTriple.getArch = llvm.Triple.ArchType.riscv64) }
  else
    none

end ABISysV_riscv

/-! ### The register information object (`RegisterInfoPOSIX_riscv64.cpp`) -/

/-- The way a call ends when it does not return: the `assert` of `<cassert>` found its
condition false and aborted the program with the message of the assertion. -/
inductive Abort where
  | assertionFailed (message : String)
  deriving DecidableEq, Repr

/-- The function `GetRegisterInfoPtr` (RegisterInfoPOSIX_riscv64.cpp, lines 53-63): the
register table, a null pointer, or the abort of `assert(false && ...)`. `NDEBUG` says
whether the file was compiled with assertions disabled: `assert` then does nothing. -/
def GetRegisterInfoPtr (NDEBUG : Bool) (target_arch : ArchSpec) :
    Except Abort (Option (List RegisterInfo)) :=
  match target_arch.GetMachine with
  | llvm.Triple.ArchType.riscv32 => pure (some g_register_infos_riscv64_le)
  | llvm.Triple.ArchType.riscv64 => pure (some g_register_infos_riscv64_le)
  | _ =>
    if NDEBUG then pure none
    else throw (Abort.assertionFailed "Unhandled target architecture.")

/-- The function `GetRegisterInfoCount` (RegisterInfoPOSIX_riscv64.cpp, lines 92-103):
`sizeof(g_register_infos_riscv64_le) / sizeof(g_register_infos_riscv64_le[0])`, the number
of entries of the table, or 0 after the `assert(false && ...)`. -/
def GetRegisterInfoCount (NDEBUG : Bool) (target_arch : ArchSpec) : Except Abort Nat :=
  match target_arch.GetMachine with
  | llvm.Triple.ArchType.riscv32 => pure g_register_infos_riscv64_le.length
  | llvm.Triple.ArchType.riscv64 => pure g_register_infos_riscv64_le.length
  | _ =>
    if NDEBUG then pure 0
    else throw (Abort.assertionFailed "Unhandled target architecture.")

/-- The members of a `RegisterInfoPOSIX_riscv64` object that its constructor sets
(RegisterInfoPOSIX_riscv64.h, lines 63-64, and the architecture kept by the base class). -/
structure RegisterInfoPOSIX_riscv64 where
  m_target_arch : ArchSpec
  m_register_info_p : Option (List RegisterInfo)
  m_register_info_count : Nat
  deriving DecidableEq, Repr

namespace RegisterInfoPOSIX_riscv64

/-- The constructor `RegisterInfoPOSIX_riscv64::RegisterInfoPOSIX_riscv64`
(RegisterInfoPOSIX_riscv64.cpp, lines 105-110): the members are initialised in the order
of the list, and the abort of either call ends the construction. -/
def create (NDEBUG : Bool) (target_arch : ArchSpec) : Except Abort RegisterInfoPOSIX_riscv64 := do
  let register_info_p ← GetRegisterInfoPtr NDEBUG target_arch
  let register_info_count ← GetRegisterInfoCount NDEBUG target_arch
  pure { m_target_arch := target_arch, m_register_info_p := register_info_p,
         m_register_info_count := register_info_count }

/-- The method `GetRegisterInfo` (RegisterInfoPOSIX_riscv64.cpp, lines 124-127). -/
def GetRegisterInfo (self : RegisterInfoPOSIX_riscv64) : Option (List RegisterInfo) :=
  self.m_register_info_p

end RegisterInfoPOSIX_riscv64

/-! ### The floating-point block (`RegisterInfoPOSIX_riscv64.h`, lines 35-38) -/

/-- The next multiple of the alignment `a` from `n` on. -/
def alignUp (n a : Nat) : Nat := (n + a - 1) / a * a

/-- The `sizeof` of a struct that is not packed, every member having the alignment of its
element type, which for the integer types used is their size: a member starts at the next
multiple of its alignment, and the size of the struct is a multiple of the largest
alignment of its members. -/
def sizeofNatural (members : List StructMember) : Nat :=
  alignUp (members.foldl (fun offset m => alignUp offset m.elem_size + m.elem_size * m.count) 0)
    (members.foldl (fun a m => max a m.elem_size) 1)

namespace RegisterInfoPOSIX_riscv64

/-- The struct `RegisterInfoPOSIX_riscv64::FPU` (RegisterInfoPOSIX_riscv64.h, lines 35-38),
declared after LLVM_PACKED_END: `uint64_t f[32]; uint32_t fcsr;`. -/
def FPU : List StructMember := [
  { name := "f", elem_size := 8, count := 32 },
  { name := "fcsr", elem_size := 4, count := 1 }]

/-- The method `GetFPRSize` (RegisterInfoPOSIX_riscv64.cpp, lines 120-122):
`sizeof(struct RegisterInfoPOSIX_riscv64::FPU)`. -/
def GetFPRSize : Nat := sizeofNatural FPU

end RegisterInfoPOSIX_riscv64

/-! ### Hardware watchpoint slots (`NativeRegisterContextLinux_riscv64.h`) -/

namespace NativeRegisterContextLinux_riscv64

/-- The struct `DREG` (NativeRegisterContextLinux_riscv64.h, lines 99-107), the spec's
DebugRegisterSlot: address, hit address, real stop address, control value and the counter
that "serves as enable/disable and reference counter". -/
structure DREG where
  address : Nat
  hit_addr : Nat
  real_addr : Nat
  control : Nat
  refcount : Nat
  deriving DecidableEq, Repr

/-- The number of entries of `m_hwp_regs` (line 110): `struct DREG m_hwp_regs[16]`. -/
def k_num_hwp_regs : Nat := 16

/-- Modelled from the spec: the method WatchpointIsEnabled, declared in
NativeRegisterContextLinux_riscv64.h and defined in a file that is not under src/. "Slot is
considered enabled iff reference_count > 0"; an index outside the table is not enabled. -/
def WatchpointIsEnabled (m_hwp_regs : List DREG) (wp_index : Nat) : Bool :=
  match m_hwp_regs[wp_index]? with
  | some slot => decide (0 < slot.refcount)
  | none => false

/-- The index of the first slot of the table that satisfies `p`, by linear scan. -/
def firstIndex (p : DREG → Bool) : List DREG → Option Nat
  | [] => none
  | slot :: rest => if p slot then some 0 else (firstIndex p rest).map (fun i => i + 1)

/-- Modelled from the spec: the slot search of SetWatchpoint (its file is not under src/),
"find a free or matching-address slot among the fixed 16": the armed slot that watches
`addr`, if there is one, and otherwise the first free slot, one whose reference count is
0. -/
def findSlot (m_hwp_regs : List DREG) (addr : Nat) : Option Nat :=
  match firstIndex (fun slot => decide (0 < slot.refcount ∧ slot.address = addr)) m_hwp_regs with
  | some i => some i
  | none => firstIndex (fun slot => decide (slot.refcount = 0)) m_hwp_regs

/-- Modelled from the spec: the operation SetWatchpoint (its file is not under src/). It
finds "a free or matching-address slot" and increments its reference count: "first use
programs" the slot with the address and the control value, "repeat use of the same address
on an already-armed slot just increments the count". With no such slot the request is
rejected and the slots are untouched (SlotExhausted). The result is the index of the slot,
if any, and the table after the call. -/
def SetWatchpoint (m_hwp_regs : List DREG) (addr control : Nat) : Option Nat × List DREG :=
  match findSlot m_hwp_regs addr with
  | none => (none, m_hwp_regs)
  | some wp_index =>
    match m_hwp_regs[wp_index]? with
    | none => (none, m_hwp_regs)
    | some slot =>
      if 0 < slot.refcount then
        (some wp_index, m_hwp_regs.set wp_index { slot with refcount := slot.refcount + 1 })
      else
        (some wp_index, m_hwp_regs.set wp_index
          { address := addr, hit_addr := 0, real_addr := addr, control := control,
            refcount := 1 })

/-- Modelled from the spec: the operation ClearWatchpoint (its file is not under src/). It
"decrements and only deprograms the hardware slot when the count reaches zero"; "freeing is
decrement, not immediate clear". An index outside the table, or a slot that is not armed,
is refused and nothing changes. The result says whether a slot was released, and gives the
table after the call. -/
def ClearWatchpoint (m_hwp_regs : List DREG) (wp_index : Nat) : Bool × List DREG :=
  match m_hwp_regs[wp_index]? with
  | none => (false, m_hwp_regs)
  | some slot =>
    if slot.refcount = 0 then
      (false, m_hwp_regs)
    else if slot.refcount = 1 then
      (true, m_hwp_regs.set wp_index
        { address := 0, hit_addr := 0, real_addr := 0, control := 0, refcount := 0 })
    else
      (true, m_hwp_regs.set wp_index { slot with refcount := slot.refcount - 1 })

end NativeRegisterContextLinux_riscv64

/-! ### Offsets into the raw blocks (`RegisterInfoPOSIX_riscv64.cpp`, lines 17-24) -/

/-- The `offsetof` of element `idx` of the member `name` in a packed struct: the sizes of
the members declared before it, plus `idx` elements. There is none for a name the struct
does not declare or an index past the end of the member. -/
def offsetofPacked : List StructMember → String → Nat → Option Nat
  | [], _, _ => none
  | m :: rest, name, idx =>
    if m.name = name then
      if idx < m.count then some (idx * m.elem_size) else none
    else
      (offsetofPacked rest name idx).map (fun offset => m.elem_size * m.count + offset)

/-- The `offsetof` of element `idx` of the member `name` in a struct with the natural
alignment of its members, laid out from the byte `offset` on, as sizeofNatural lays them
out. -/
def offsetofNaturalFrom (offset : Nat) : List StructMember → String → Nat → Option Nat
  | [], _, _ => none
  | m :: rest, name, idx =>
    if m.name = name then
      if idx < m.count then some (alignUp offset m.elem_size + idx * m.elem_size) else none
    else
      offsetofNaturalFrom (alignUp offset m.elem_size + m.elem_size * m.count) rest name idx

/-- The `offsetof` of element `idx` of the member `name` in a struct that is not packed. -/
def offsetofNatural (members : List StructMember) (name : String) (idx : Nat) : Option Nat :=
  offsetofNaturalFrom 0 members name idx

/-- The macro `GPR_OFFSET_NAME(reg)` (RegisterInfoPOSIX_riscv64.cpp, lines 18-19):
`offsetof(RegisterInfoPOSIX_riscv64::GPR, reg)`, for the element `idx` of the member
`reg`. -/
def GPR_OFFSET_NAME (reg : String) (idx : Nat) : Option Nat :=
  offsetofPacked RegisterInfoPOSIX_riscv64.GPR reg idx

/-- The macro `FPU_OFFSET(idx)` (RegisterInfoPOSIX_riscv64.cpp, line 21):
`((idx)*16 + sizeof(RegisterInfoPOSIX_riscv64::GPR))`. -/
def FPU_OFFSET (idx : Nat) : Nat :=
  idx * 16 + sizeofPacked RegisterInfoPOSIX_riscv64.GPR

/-- The macro `FPU_OFFSET_NAME(reg)` (RegisterInfoPOSIX_riscv64.cpp, lines 22-24):
`offsetof(RegisterInfoPOSIX_riscv64::FPU, reg) + sizeof(RegisterInfoPOSIX_riscv64::GPR)`,
for the element `idx` of the member `reg`. -/
def FPU_OFFSET_NAME (reg : String) (idx : Nat) : Option Nat :=
  (offsetofNatural RegisterInfoPOSIX_riscv64.FPU reg idx).map
    (fun offset => offset + sizeofPacked RegisterInfoPOSIX_riscv64.GPR)

/-- The member of struct GPR, and the element of it, that holds the architectural register
xN under the ABI names the struct declares and its comments give (`t[7]; //t0-6`,
`s[12]; //fp/s0-s11`, `a[8]; //a0-7`): zero = x0, ra = x1, sp = x2, gp = x3, tp = x4,
t0-t2 = x5-x7, s0/fp and s1 = x8 and x9, a0-a7 = x10-x17, s2-s11 = x18-x27, t3-t6 =
x28-x31. -/
def abiFieldOfX (N : Nat) : String × Nat :=
  if N = 0 then ("zero", 0)
  else if N = 1 then ("ra", 0)
  else if N = 2 then ("sp", 0)
  else if N = 3 then ("gp", 0)
  else if N = 4 then ("tp", 0)
  else if N ≤ 7 then ("t", N - 5)
  else if N ≤ 9 then ("s", N - 8)
  else if N ≤ 17 then ("a", N - 10)
  else if N ≤ 27 then ("s", N - 18 + 2)
  else ("t", N - 28 + 3)

/-! ### Sample inputs -/

/-- An architecture descriptor with the given architecture, as triple and as machine, and
no flag set. -/
def archOf (a : llvm.Triple.ArchType) : ArchSpec :=
  { m_flags := 0, m_triple := { Arch := a }, m_machine := a }

/-- An ABI object bound to a live process whose architecture has the flags word `flags`. -/
def ABISysV_riscv.boundTo (flags : Nat) : ABISysV_riscv :=
  { m_process := some { m_target := { m_arch := { m_flags := flags } } } }

/-- An ABI object bound to no process: `GetProcessSP()` gives a null pointer. -/
def ABISysV_riscv.unbound : ABISysV_riscv :=
  { m_process := none }

/-- A sample pair of hard-float masks, two distinct single bits. -/
def sampleMasks : RISCVAbiMasks :=
  { eRISCV_abi_f := 2, eRISCV_abi_d := 4 }

/-- A plan with content from an earlier use: one row at offset 16 whose CFA is register 8
plus 16, DWARF numbering, both trust flags set to yes. -/
def usedPlan : UnwindPlan :=
  { m_row_list := [{ m_offset := 16, m_cfa_value := .isRegisterPlusOffset 8 16,
                     m_register_locations := [(1, .inOtherRegister 1)] }],
    m_register_kind := lldb.RegisterKind.eRegisterKindDWARF,
    m_source_name := "earlier plan",
    m_plan_is_sourced_from_compiler := LazyBool.eLazyBoolYes,
    m_plan_is_valid_at_all_instruction_locations := LazyBool.eLazyBoolYes }

/-- A table of 16 watchpoint slots in which slot 0 is armed once on address 4096 and the
other 15 slots are free. -/
def sampleSlots : List NativeRegisterContextLinux_riscv64.DREG :=
  { address := 4096, hit_addr := 0, real_addr := 4096, control := 1, refcount := 1 } ::
    List.replicate 15
      { address := 0, hit_addr := 0, real_addr := 0, control := 0, refcount := 0 }

/-! ## Part 2: theorems -/

namespace llvm.StringSwitch

/-- `Case` keeps the string switched on. -/
theorem Case_Str {T : Type} (sw : StringSwitch T) (S : String) (v : T) :
    (sw.Case S v).Str = sw.Str := by
  unfold Case
  split <;> rfl

/-- The result after `Case`: an earlier match stands, else this case decides. -/
theorem Case_Result {T : Type} (sw : StringSwitch T) (S : String) (v : T) :
    (sw.Case S v).Result =
      match sw.Result with
      | some r => some r
      | none => if sw.Str = S then some v else none := by
  unfold Case
  cases hr : sw.Result <;> by_cases hs : sw.Str = S <;> simp [hr, hs]

/-- `Cases` keeps the string switched on. -/
theorem Cases_Str {T : Type} (Ss : List String) (v : T) (sw : StringSwitch T) :
    (sw.Cases Ss v).Str = sw.Str := by
  induction Ss generalizing sw with
  | nil => rfl
  | cons S0 rest ih => simp [Cases, ih, Case_Str]

/-- The result after `Cases`: an earlier match stands, else membership in the list decides. -/
theorem Cases_Result {T : Type} (Ss : List String) (v : T) (sw : StringSwitch T) :
    (sw.Cases Ss v).Result =
      match sw.Result with
      | some r => some r
      | none => if sw.Str ∈ Ss then some v else none := by
  induction Ss generalizing sw with
  | nil => cases h : sw.Result <;> simp [Cases, h]
  | cons S0 rest ih =>
    simp only [Cases, ih, Case_Result, Case_Str, List.mem_cons]
    cases sw.Result with
    | some r => rfl
    | none => by_cases h0 : sw.Str = S0 <;> simp [h0]

/-- Two `Cases` calls in a row with the same value are one call on the joined list. -/
theorem Cases_append {T : Type} (A B : List String) (v : T) (sw : StringSwitch T) :
    (sw.Cases A v).Cases B v = sw.Cases (A ++ B) v := by
  induction A generalizing sw with
  | nil => rfl
  | cons S0 rest ih => simp [Cases, ih]

end llvm.StringSwitch

namespace ABISysV_riscv

/-- What RegisterIsCalleeSaved computes for a non-null descriptor: the switch reduced to two
membership tests on the name. -/
theorem RegisterIsCalleeSaved_some (M : RISCVAbiMasks) (abi : ABISysV_riscv)
    (reg_info : RegisterInfo) :
    abi.RegisterIsCalleeSaved M (some reg_info) =
      if reg_info.name ∈ ["x1", "x2", "x8", "x9", "x18", "x19", "x20", "x21",
          "x22", "x23", "x24", "x25", "x26", "x27"] then true
      else if reg_info.name ∈ ["f8", "f9", "f18", "f19", "f20", "f21",
          "f22", "f23", "f24", "f25", "f26", "f27"] then abi.IsHardFloatProcess M
      else false := by
  simp only [RegisterIsCalleeSaved, llvm.StringSwitch.Cases_append, List.cons_append,
    List.nil_append, llvm.StringSwitch.Default, llvm.StringSwitch.Cases_Result,
    llvm.StringSwitch.Cases_Str, llvm.StringSwitch.create]
  split_ifs <;> rfl

/-- Claim C2: GetGenericNum returns the generic number PC for "pc", RA for "ra", SP for "sp",
FP for "fp" and ARG1..ARG8 for "a0".."a7", and LLDB_INVALID_REGNUM for every other name. -/
theorem GetGenericNum_contract :
    GetGenericNum "pc" = LLDB_REGNUM_GENERIC_PC ∧
    GetGenericNum "ra" = LLDB_REGNUM_GENERIC_RA ∧
    GetGenericNum "sp" = LLDB_REGNUM_GENERIC_SP ∧
    GetGenericNum "fp" = LLDB_REGNUM_GENERIC_FP ∧
    GetGenericNum "a0" = LLDB_REGNUM_GENERIC_ARG1 ∧
    GetGenericNum "a1" = LLDB_REGNUM_GENERIC_ARG2 ∧
    GetGenericNum "a2" = LLDB_REGNUM_GENERIC_ARG3 ∧
    GetGenericNum "a3" = LLDB_REGNUM_GENERIC_ARG4 ∧
    GetGenericNum "a4" = LLDB_REGNUM_GENERIC_ARG5 ∧
    GetGenericNum "a5" = LLDB_REGNUM_GENERIC_ARG6 ∧
    GetGenericNum "a6" = LLDB_REGNUM_GENERIC_ARG7 ∧
    GetGenericNum "a7" = LLDB_REGNUM_GENERIC_ARG8 ∧
    ∀ name : String,
      name ∉ ["pc", "ra", "sp", "fp", "a0", "a1", "a2", "a3", "a4", "a5", "a6", "a7"] →
      GetGenericNum name = LLDB_INVALID_REGNUM := by
  refine ⟨by decide, by decide, by decide, by decide, by decide, by decide, by decide,
    by decide, by decide, by decide, by decide, by decide, ?_⟩
  intro name h
  simp only [List.mem_cons, List.mem_singleton, List.not_mem_nil, or_false, not_or] at h
  obtain ⟨h1, h2, h3, h4, h5, h6, h7, h8, h9, h10, h11, h12⟩ := h
  simp [GetGenericNum, llvm.StringSwitch.Case, llvm.StringSwitch.create,
    llvm.StringSwitch.Default, h1, h2, h3, h4, h5, h6, h7, h8, h9, h10, h11, h12]

/-- Claim C2, at the names the spec tests: "ra" gives RA, "a7" gives ARG8 and "x5", a name
outside the twelve cases, gives LLDB_INVALID_REGNUM. -/
theorem GetGenericNum_contract_witness :
    GetGenericNum "ra" = LLDB_REGNUM_GENERIC_RA ∧
    GetGenericNum "a7" = LLDB_REGNUM_GENERIC_ARG8 ∧
    GetGenericNum "x5" = LLDB_INVALID_REGNUM :=
  ⟨GetGenericNum_contract.2.1,
   GetGenericNum_contract.2.2.2.2.2.2.2.2.2.2.2.1,
   GetGenericNum_contract.2.2.2.2.2.2.2.2.2.2.2.2 "x5" (by decide)⟩

/-- Claim C1, as stated, fails: under a hard-float process a descriptor named "fs0" is not
reported callee-saved, neither is one named "s1", and one named "x9", a name outside the
sets of the claim, is. -/
theorem RegisterIsCalleeSaved_abi_names_counterexample :
    (boundTo 2).IsHardFloatProcess sampleMasks = true ∧
    (boundTo 2).RegisterIsCalleeSaved sampleMasks (some (RegisterInfo.named "fs0")) = false ∧
    (boundTo 2).RegisterIsCalleeSaved sampleMasks (some (RegisterInfo.named "s1")) = false ∧
    (boundTo 2).RegisterIsCalleeSaved sampleMasks (some (RegisterInfo.named "x9")) = true := by
  decide

/-- Claim C1, amended: for every descriptor whose name is not one of the catalog's three
ABI names "ra", "sp", "fp", and every process state, RegisterIsCalleeSaved returns true iff
the name is one of the architectural names x1, x2, x8, x9, x18..x27 (the registers ra, sp,
s0/fp, s1, s2..s11), or the name is one of f8, f9, f18..f27 (the registers fs0, fs1,
fs2..fs11) and IsHardFloatProcess() is true. -/
theorem RegisterIsCalleeSaved_by_architectural_name (M : RISCVAbiMasks) (abi : ABISysV_riscv)
    (reg_info : RegisterInfo) (_h : reg_info.name ∉ ["ra", "sp", "fp"]) :
    abi.RegisterIsCalleeSaved M (some reg_info) = true ↔
      reg_info.name ∈ ["x1", "x2", "x8", "x9", "x18", "x19", "x20", "x21",
        "x22", "x23", "x24", "x25", "x26", "x27"] ∨
      (reg_info.name ∈ ["f8", "f9", "f18", "f19", "f20", "f21",
        "f22", "f23", "f24", "f25", "f26", "f27"] ∧ abi.IsHardFloatProcess M = true) := by
  rw [RegisterIsCalleeSaved_some]
  split_ifs with h1 h2
  · simp [h1]
  · simp [h1, h2]
  · simp [h1, h2]

/-- Claim C1, amended, at concrete descriptors: "x2" (sp) is callee-saved, "a0" is not, and
"f8" (fs0) is callee-saved under a hard-float process and not when no process is bound. -/
theorem RegisterIsCalleeSaved_by_architectural_name_witness :
    (unbound.RegisterIsCalleeSaved sampleMasks (some (RegisterInfo.named "x2")) = true) ∧
    (¬ unbound.RegisterIsCalleeSaved sampleMasks (some (RegisterInfo.named "a0")) = true) ∧
    ((boundTo 2).RegisterIsCalleeSaved sampleMasks (some (RegisterInfo.named "f8")) = true) ∧
    (¬ unbound.RegisterIsCalleeSaved sampleMasks (some (RegisterInfo.named "f8")) = true) :=
  ⟨(RegisterIsCalleeSaved_by_architectural_name sampleMasks unbound (RegisterInfo.named "x2")
      (by decide)).mpr (by decide),
   fun hc => absurd ((RegisterIsCalleeSaved_by_architectural_name sampleMasks unbound
      (RegisterInfo.named "a0") (by decide)).mp hc) (by decide),
   (RegisterIsCalleeSaved_by_architectural_name sampleMasks (boundTo 2)
      (RegisterInfo.named "f8") (by decide)).mpr (by decide),
   fun hc => absurd ((RegisterIsCalleeSaved_by_architectural_name sampleMasks unbound
      (RegisterInfo.named "f8") (by decide)).mp hc) (by decide)⟩

/-- Claim C9: RegisterIsVolatile is the negation of RegisterIsCalleeSaved for every argument
and every process state, and the null descriptor is reported volatile. -/
theorem RegisterIsVolatile_eq_not_RegisterIsCalleeSaved (M : RISCVAbiMasks)
    (abi : ABISysV_riscv) (reg_info : Option RegisterInfo) :
    abi.RegisterIsVolatile M reg_info = !abi.RegisterIsCalleeSaved M reg_info ∧
    abi.RegisterIsCalleeSaved M none = false ∧
    abi.RegisterIsVolatile M none = true :=
  ⟨rfl, rfl, rfl⟩

/-- Claim C10: IsHardFloatProcess returns false when no process is bound, and when a process
is bound it returns true iff the flags of the target architecture have a bit of
eRISCV_abi_f or a bit of eRISCV_abi_d set; the result is always a boolean. -/
theorem IsHardFloatProcess_spec (M : RISCVAbiMasks) :
    IsHardFloatProcess M { m_process := none } = false ∧
    ∀ process_sp : Process,
      (IsHardFloatProcess M { m_process := some process_sp } = true ↔
        process_sp.GetTarget.GetArchitecture.GetFlags &&& M.eRISCV_abi_f ≠ 0 ∨
        process_sp.GetTarget.GetArchitecture.GetFlags &&& M.eRISCV_abi_d ≠ 0) := by
  refine ⟨rfl, ?_⟩
  intro process_sp
  simp only [IsHardFloatProcess, GetProcessSP]
  split_ifs with h
  · simp [h]
  · simp [h]

/-- Claim C3: whatever the plan held before, CreateFunctionEntryUnwindPlan returns true and
leaves a plan with exactly one row, whose CFA rule is the generic SP register plus offset 0
and whose only register rule says the PC is found in the generic RA register; the register
kind of the plan is generic and the plan is marked not sourced from the compiler. -/
theorem CreateFunctionEntryUnwindPlan_spec (unwind_plan : UnwindPlan) :
    (CreateFunctionEntryUnwindPlan unwind_plan).1 = true ∧
    (∃ row : UnwindPlan.Row,
      (CreateFunctionEntryUnwindPlan unwind_plan).2.m_row_list = [row] ∧
      row.m_cfa_value = .isRegisterPlusOffset LLDB_REGNUM_GENERIC_SP 0 ∧
      row.m_register_locations =
        [(LLDB_REGNUM_GENERIC_PC, .inOtherRegister LLDB_REGNUM_GENERIC_RA)]) ∧
    (CreateFunctionEntryUnwindPlan unwind_plan).2.m_register_kind =
      lldb.RegisterKind.eRegisterKindGeneric ∧
    (CreateFunctionEntryUnwindPlan unwind_plan).2.m_plan_is_sourced_from_compiler =
      LazyBool.eLazyBoolNo :=
  ⟨rfl, ⟨_, rfl, rfl, rfl⟩, rfl, rfl⟩

/-- Claim C4, as stated, fails: on a plan whose flags were both yes, the plan left by
CreateFunctionEntryUnwindPlan has its valid-at-all-instructions flag at "not yet decided"
(eLazyBoolCalculate), which is not yes. -/
theorem CreateFunctionEntryUnwindPlan_valid_at_all_counterexample :
    (CreateFunctionEntryUnwindPlan usedPlan).2.m_plan_is_valid_at_all_instruction_locations =
      LazyBool.eLazyBoolCalculate ∧
    (CreateFunctionEntryUnwindPlan usedPlan).2.m_plan_is_valid_at_all_instruction_locations ≠
      LazyBool.eLazyBoolYes := by
  decide

/-- Claim C4, amended: whatever the plan held before, CreateDefaultUnwindPlan returns true
and leaves a plan with exactly one row, at offset 0, with CFA = generic SP + 0 and the PC
found in the generic RA register, and with both trust flags (sourced from the compiler,
valid at all instructions) set to no; CreateFunctionEntryUnwindPlan leaves the same single
row and sourced-from-compiler = no, and leaves the valid-at-all-instructions flag as
Clear() reset it, not yet decided (eLazyBoolCalculate): neither no nor yes. -/
theorem CreateDefaultUnwindPlan_spec (unwind_plan : UnwindPlan) :
    (CreateDefaultUnwindPlan unwind_plan).1 = true ∧
    (∃ row : UnwindPlan.Row,
      (CreateDefaultUnwindPlan unwind_plan).2.m_row_list = [row] ∧
      row.m_offset = 0 ∧
      row.m_cfa_value = .isRegisterPlusOffset LLDB_REGNUM_GENERIC_SP 0 ∧
      row.m_register_locations =
        [(LLDB_REGNUM_GENERIC_PC, .inOtherRegister LLDB_REGNUM_GENERIC_RA)] ∧
      (CreateFunctionEntryUnwindPlan unwind_plan).2.m_row_list = [row]) ∧
    (CreateDefaultUnwindPlan unwind_plan).2.m_plan_is_sourced_from_compiler =
      LazyBool.eLazyBoolNo ∧
    (CreateDefaultUnwindPlan unwind_plan).2.m_plan_is_valid_at_all_instruction_locations =
      LazyBool.eLazyBoolNo ∧
    (CreateFunctionEntryUnwindPlan unwind_plan).2.m_plan_is_sourced_from_compiler =
      LazyBool.eLazyBoolNo ∧
    (CreateFunctionEntryUnwindPlan unwind_plan).2.m_plan_is_valid_at_all_instruction_locations =
      LazyBool.eLazyBoolCalculate :=
  ⟨rfl, ⟨_, rfl, rfl, rfl, rfl, rfl⟩, rfl, rfl, rfl, rfl⟩

end ABISysV_riscv

namespace RegisterInfoPOSIX_riscv64

/-- Claim C5, the code at the failing input: GetRegisterSetCount() is 0, so GetRegisterSet
gives a null pointer for every set index, and in particular for the set index that
GetRegisterSetFromRegisterIndex gives for the GPR indices 0 and 31, although
g_reg_sets_riscv64 holds the set "General Purpose Registers" at index 0. -/
theorem GetRegisterSet_of_gpr_index_is_null :
    GetRegisterSetCount = 0 ∧
    (∀ set_index : Nat, GetRegisterSet set_index = none) ∧
    GetRegisterSet (GetRegisterSetFromRegisterIndex 0) = none ∧
    GetRegisterSet (GetRegisterSetFromRegisterIndex 31) = none ∧
    (g_reg_sets_riscv64[GetRegisterSetFromRegisterIndex 0]?).map (fun set => set.name) =
      some "General Purpose Registers" := by
  refine ⟨by decide, ?_, by decide, by decide, by decide⟩
  intro set_index
  simp [GetRegisterSet, GetRegisterSetCount, k_num_register_sets]

/-- Claim C6: for every index, GetRegisterSetFromRegisterIndex returns the GPR set index
GPRegSet = 0 when the index is at most 31 = gpr_x31, and LLDB_INVALID_REGNUM when it is
greater than 31. -/
theorem GetRegisterSetFromRegisterIndex_spec (reg_index : Nat) :
    (reg_index ≤ 31 → GetRegisterSetFromRegisterIndex reg_index = 0) ∧
    (31 < reg_index → GetRegisterSetFromRegisterIndex reg_index = LLDB_INVALID_REGNUM) ∧
    GPRegSet = 0 ∧ gpr_x31 = 31 := by
  have h31 : gpr_x31 = 31 := by decide
  refine ⟨fun h => ?_, fun h => ?_, rfl, h31⟩
  · simp [GetRegisterSetFromRegisterIndex, h31, h, GPRegSet]
  · simp [GetRegisterSetFromRegisterIndex, h31, Nat.not_le.mpr h]

/-- Claim C6, at the two ends of the GPR range and at the largest 32-bit index: 0 and 31
give set 0; 32 and 4294967295 give LLDB_INVALID_REGNUM. -/
theorem GetRegisterSetFromRegisterIndex_spec_witness :
    GetRegisterSetFromRegisterIndex 0 = 0 ∧
    GetRegisterSetFromRegisterIndex 31 = 0 ∧
    GetRegisterSetFromRegisterIndex 32 = LLDB_INVALID_REGNUM ∧
    GetRegisterSetFromRegisterIndex 4294967295 = LLDB_INVALID_REGNUM :=
  ⟨(GetRegisterSetFromRegisterIndex_spec 0).1 (by decide),
   (GetRegisterSetFromRegisterIndex_spec 31).1 (by decide),
   (GetRegisterSetFromRegisterIndex_spec 32).2.1 (by decide),
   (GetRegisterSetFromRegisterIndex_spec 4294967295).2.1 (by decide)⟩

end RegisterInfoPOSIX_riscv64

/-- Claim C7, the code at the failing input: MISC_KIND gives four numbers to the five
entries of the kinds array, so in every descriptor of g_register_infos_riscv64_le the entry
eRegisterKindLLDB, the last one, is the zero the initialisation fills in: the descriptors at
positions 1 and 2 both have native index 0. The number gpr_##reg, which is the position of
the descriptor, is in the entry eRegisterKindProcessPlugin. -/
theorem catalog_native_index_is_zero :
    g_register_infos_riscv64_le.map
        (fun d => d.kinds[lldb.RegisterKind.eRegisterKindLLDB.toNat]?) =
      List.replicate 32 (some 0) ∧
    (g_register_infos_riscv64_le[1]?).map
        (fun d => d.kinds[lldb.RegisterKind.eRegisterKindLLDB.toNat]?) = some (some 0) ∧
    (g_register_infos_riscv64_le[2]?).map
        (fun d => d.kinds[lldb.RegisterKind.eRegisterKindLLDB.toNat]?) = some (some 0) ∧
    g_register_infos_riscv64_le.map
        (fun d => d.kinds[lldb.RegisterKind.eRegisterKindProcessPlugin.toNat]?) =
      (List.range 32).map some ∧
    g_register_infos_riscv64_le.map (fun d => d.kinds.length) =
      List.replicate 32 lldb.kNumRegisterKinds := by
  decide

/-- Claim C8: the catalog g_register_infos_riscv64_le has 32 descriptors, and for every one
of them byte_size is 8, byte_offset is GPR_OFFSET of an index below 32, and byte_offset +
byte_size is at most sizeof(RegisterInfoPOSIX_riscv64::GPR) = GetGPRSize() = 256. -/
theorem catalog_within_GPR_block (d : RegisterInfo) (h : d ∈ g_register_infos_riscv64_le) :
    d.byte_size = 8 ∧
    (∃ idx, idx < 32 ∧ d.byte_offset = GPR_OFFSET idx) ∧
    d.byte_offset + d.byte_size ≤ RegisterInfoPOSIX_riscv64.GetGPRSize ∧
    RegisterInfoPOSIX_riscv64.GetGPRSize = sizeofPacked RegisterInfoPOSIX_riscv64.GPR ∧
    RegisterInfoPOSIX_riscv64.GetGPRSize = 256 ∧
    g_register_infos_riscv64_le.length = 32 := by
  have key : ∀ d ∈ g_register_infos_riscv64_le,
      d.byte_size = 8 ∧ (d.byte_offset % 8 = 0 ∧ d.byte_offset / 8 < 32) ∧
      d.byte_offset + d.byte_size ≤ RegisterInfoPOSIX_riscv64.GetGPRSize := by
    decide
  obtain ⟨h1, ⟨h2, h3⟩, h4⟩ := key d h
  refine ⟨h1, ⟨d.byte_offset / 8, h3, ?_⟩, h4, rfl, by decide, by decide⟩
  unfold GPR_OFFSET
  omega

/-- Claim C8, at the last descriptor of the catalog, x31, where the bound is reached:
offset 248 plus size 8 is the 256 bytes of the GPR block. -/
theorem catalog_within_GPR_block_witness :
    (DEFINE_GPR64 "x31" gpr_x31 riscv64_dwarf.x31 LLDB_INVALID_REGNUM).byte_offset +
      (DEFINE_GPR64 "x31" gpr_x31 riscv64_dwarf.x31 LLDB_INVALID_REGNUM).byte_size ≤
      RegisterInfoPOSIX_riscv64.GetGPRSize :=
  (catalog_within_GPR_block
    (DEFINE_GPR64 "x31" gpr_x31 riscv64_dwarf.x31 LLDB_INVALID_REGNUM) (by decide)).2.2.1

namespace ABISysV_riscv

/-- Claim C11: GetEHAndDWARFNums returns the pair (LLDB_INVALID_REGNUM, DWARF number) with
DWARF number 1 = dwarf_x1 for "ra", 2 = dwarf_x2 for "sp" and 8 = dwarf_x8 for "fp", and for
every other name it returns exactly what MCBasedABI::GetEHAndDWARFNums returns for that
name, whatever that generic mapping is. -/
theorem GetEHAndDWARFNums_spec (MCBasedABI_GetEHAndDWARFNums : String → Nat × Nat) :
    GetEHAndDWARFNums MCBasedABI_GetEHAndDWARFNums "ra" = (LLDB_INVALID_REGNUM, 1) ∧
    GetEHAndDWARFNums MCBasedABI_GetEHAndDWARFNums "sp" = (LLDB_INVALID_REGNUM, 2) ∧
    GetEHAndDWARFNums MCBasedABI_GetEHAndDWARFNums "fp" = (LLDB_INVALID_REGNUM, 8) ∧
    ∀ name : String, name ∉ ["ra", "sp", "fp"] →
      GetEHAndDWARFNums MCBasedABI_GetEHAndDWARFNums name =
        MCBasedABI_GetEHAndDWARFNums name := by
  refine ⟨rfl, rfl, rfl, ?_⟩
  intro name h
  simp only [List.mem_cons, List.mem_singleton, List.not_mem_nil, or_false, not_or] at h
  obtain ⟨h1, h2, h3⟩ := h
  simp [GetEHAndDWARFNums, h1, h2, h3]

/-- Claim C11, with a generic mapping that knows the DWARF number 5 of "x5" only: "ra" gives
(LLDB_INVALID_REGNUM, 1) and "x5" gives what the generic mapping gives, (5, 5). -/
theorem GetEHAndDWARFNums_spec_witness :
    GetEHAndDWARFNums
        (fun n => if n = "x5" then (5, 5) else (LLDB_INVALID_REGNUM, LLDB_INVALID_REGNUM))
        "ra" = (LLDB_INVALID_REGNUM, 1) ∧
    GetEHAndDWARFNums
        (fun n => if n = "x5" then (5, 5) else (LLDB_INVALID_REGNUM, LLDB_INVALID_REGNUM))
        "x5" = (5, 5) :=
  ⟨(GetEHAndDWARFNums_spec _).1,
   ((GetEHAndDWARFNums_spec _).2.2.2 "x5" (by decide)).trans (by decide)⟩

/-- Claim C12: CreateInstance returns an ABI object iff the architecture of the triple of the
given descriptor is riscv32 or riscv64, and the empty ABISP for every other architecture;
the object it returns is bound to the given process and its 64-bit flag is true iff the
architecture is riscv64. -/
theorem CreateInstance_spec {MCRegisterInfo : Type}
    (MakeMCRegisterInfo : ArchSpec → MCRegisterInfo) (process_sp : Option Process)
    (arch : ArchSpec) :
    ((CreateInstance MakeMCRegisterInfo process_sp arch).isSome = true ↔
      (arch.GetTriple.getArch = llvm.Triple.ArchType.riscv32 ∨
       arch.GetTriple.getArch = llvm.Triple.ArchType.riscv64)) ∧
    ((arch.GetTriple.getArch ≠ llvm.Triple.ArchType.riscv32 ∧
       arch.GetTriple.getArch ≠ llvm.Triple.ArchType.riscv64) →
      CreateInstance MakeMCRegisterInfo process_sp arch = none) ∧
    (∀ abi : Instance MCRegisterInfo,
      CreateInstance MakeMCRegisterInfo process_sp arch = some abi →
        (abi.is64 = true ↔ arch.GetTriple.getArch = llvm.Triple.ArchType.riscv64) ∧
        abi.m_process = process_sp) := by
  unfold CreateInstance
  split_ifs with h
  · refine ⟨by simp [h], fun hn => absurd h (by tauto), ?_⟩
    intro abi habi
    cases habi
    simp
  · refine ⟨by simp [h], fun _ => rfl, ?_⟩
    intro abi habi
    cases habi

/-- Claim C12, at three descriptors: riscv64 gives an object with the 64-bit flag set,
riscv32 one with the flag clear, x86_64 gives the empty ABISP. -/
theorem CreateInstance_spec_witness :
    (CreateInstance (fun _ => ()) none (archOf llvm.Triple.ArchType.riscv64)).map
        (fun abi => abi.is64) = some true ∧
    (CreateInstance (fun _ => ()) none (archOf llvm.Triple.ArchType.riscv32)).map
        (fun abi => abi.is64) = some false ∧
    CreateInstance (fun _ => ()) none (archOf llvm.Triple.ArchType.x86_64) = none :=
  ⟨by decide, by decide,
   (CreateInstance_spec (fun _ => ()) none (archOf llvm.Triple.ArchType.x86_64)).2.1
     (by decide)⟩

end ABISysV_riscv

namespace RegisterInfoPOSIX_riscv64

/-- Claim C13, as stated, fails: for the architecture x86_64 the construction, compiled with
assertions, ends in the failing assertion "Unhandled target architecture." of
GetRegisterInfoPtr; and GetRegisterCount() is 32, not 0. -/
theorem create_unsupported_counterexample :
    create false (archOf llvm.Triple.ArchType.x86_64) =
      Except.error (Abort.assertionFailed "Unhandled target architecture.") ∧
    GetRegisterInfoPtr false (archOf llvm.Triple.ArchType.x86_64) =
      Except.error (Abort.assertionFailed "Unhandled target architecture.") ∧
    GetRegisterCount = 32 :=
  ⟨rfl, rfl, by decide⟩

/-- Claim C13, amended: for an architecture other than riscv32 and riscv64 the construction
of RegisterInfoPOSIX_riscv64 reaches `assert(false && "Unhandled target architecture.")` in
GetRegisterInfoPtr. Compiled with assertions it aborts there and no object results;
compiled without them (NDEBUG) it gives an object whose GetRegisterInfo() is null and whose
m_register_info_count is 0. GetRegisterCount() does not read the architecture: it is
k_num_gpr_registers = 32. -/
theorem create_unsupported (target_arch : ArchSpec)
    (h32 : target_arch.GetMachine ≠ llvm.Triple.ArchType.riscv32)
    (h64 : target_arch.GetMachine ≠ llvm.Triple.ArchType.riscv64) :
    create false target_arch =
      Except.error (Abort.assertionFailed "Unhandled target architecture.") ∧
    (∃ obj : RegisterInfoPOSIX_riscv64, create true target_arch = Except.ok obj ∧
      obj.GetRegisterInfo = none ∧ obj.m_register_info_count = 0) ∧
    GetRegisterCount = k_num_gpr_registers ∧ k_num_gpr_registers = 32 := by
  have hp : ∀ b, GetRegisterInfoPtr b target_arch =
      if b then pure none
      else throw (Abort.assertionFailed "Unhandled target architecture.") := by
    intro b
    unfold GetRegisterInfoPtr
    split
    · rename_i heq; exact absurd heq h32
    · rename_i heq; exact absurd heq h64
    · rfl
  have hc : ∀ b, GetRegisterInfoCount b target_arch =
      if b then pure 0
      else throw (Abort.assertionFailed "Unhandled target architecture.") := by
    intro b
    unfold GetRegisterInfoCount
    split
    · rename_i heq; exact absurd heq h32
    · rename_i heq; exact absurd heq h64
    · rfl
  refine ⟨?_, ⟨{ m_target_arch := target_arch, m_register_info_p := none,
                  m_register_info_count := 0 }, ?_, rfl, rfl⟩, rfl, by decide⟩
  · simp only [create, hp, hc]
    rfl
  · simp only [create, hp, hc]
    rfl

/-- Claim C13, amended, at the architecture x86_64: with assertions the construction
aborts; GetRegisterCount() is 32. -/
theorem create_unsupported_witness :
    create false (archOf llvm.Triple.ArchType.x86_64) =
      Except.error (Abort.assertionFailed "Unhandled target architecture.") ∧
    GetRegisterCount = 32 :=
  ⟨(create_unsupported (archOf llvm.Triple.ArchType.x86_64) (by decide) (by decide)).1,
   (create_unsupported (archOf llvm.Triple.ArchType.x86_64) (by decide) (by decide)).2.2.1.trans
     (create_unsupported (archOf llvm.Triple.ArchType.x86_64) (by decide) (by decide)).2.2.2⟩

end RegisterInfoPOSIX_riscv64

/-- Claim C14: there is one register set, its register list g_gpr_regnums_riscv64 is the
sequence 0, 1, ..., 31 followed by LLDB_INVALID_REGNUM, with no number twice; its declared
count k_num_gpr_registers = 32 is the length of the list without the terminator, is
GetRegisterCount(), and is the number of descriptors of g_register_infos_riscv64_le; so
every index below 32 is listed by exactly one set. -/
theorem register_set_lists_every_index_once :
    g_reg_sets_riscv64.map (fun set => set.registers) =
      [List.range 32 ++ [LLDB_INVALID_REGNUM]] ∧
    g_gpr_regnums_riscv64 = List.range 32 ++ [LLDB_INVALID_REGNUM] ∧
    g_gpr_regnums_riscv64.Nodup ∧
    g_reg_sets_riscv64.map (fun set => set.num_registers) = [k_num_gpr_registers] ∧
    k_num_gpr_registers = 32 ∧
    g_gpr_regnums_riscv64.length - 1 = k_num_gpr_registers ∧
    RegisterInfoPOSIX_riscv64.GetRegisterCount = k_num_gpr_registers ∧
    g_register_infos_riscv64_le.length = k_num_gpr_registers ∧
    (∀ i, i < 32 →
      (g_reg_sets_riscv64.filter
        (fun set => decide (i ∈ set.registers.take set.num_registers))).length = 1) := by
  decide

/-- Claim C17, the code at the failing input: in every descriptor of the catalog the entry
eRegisterKindDWARF of kinds holds the generic role that MISC_KIND wrote second (for x0 it is
LLDB_INVALID_REGNUM, not 0; for ra it is LLDB_REGNUM_GENERIC_RA = 3, not 1), the entry
eRegisterKindGeneric holds LLDB_INVALID_REGNUM for all 32 descriptors, ra, sp, fp and
x10..x17 included, and the DWARF number is in the entry eRegisterKindEHFrame. -/
theorem catalog_kinds_are_shifted :
    g_register_infos_riscv64_le.map
        (fun d => d.kinds[lldb.RegisterKind.eRegisterKindDWARF.toNat]?) =
      [some LLDB_INVALID_REGNUM, some LLDB_REGNUM_GENERIC_RA, some LLDB_REGNUM_GENERIC_SP,
       some LLDB_INVALID_REGNUM, some LLDB_INVALID_REGNUM, some LLDB_INVALID_REGNUM,
       some LLDB_INVALID_REGNUM, some LLDB_INVALID_REGNUM, some LLDB_REGNUM_GENERIC_FP,
       some LLDB_INVALID_REGNUM,
       some LLDB_REGNUM_GENERIC_ARG1, some LLDB_REGNUM_GENERIC_ARG2,
       some LLDB_REGNUM_GENERIC_ARG3, some LLDB_REGNUM_GENERIC_ARG4,
       some LLDB_REGNUM_GENERIC_ARG5, some LLDB_REGNUM_GENERIC_ARG6,
       some LLDB_REGNUM_GENERIC_ARG7, some LLDB_REGNUM_GENERIC_ARG8] ++
      List.replicate 14 (some LLDB_INVALID_REGNUM) ∧
    g_register_infos_riscv64_le.map
        (fun d => d.kinds[lldb.RegisterKind.eRegisterKindGeneric.toNat]?) =
      List.replicate 32 (some LLDB_INVALID_REGNUM) ∧
    g_register_infos_riscv64_le.map
        (fun d => d.kinds[lldb.RegisterKind.eRegisterKindEHFrame.toNat]?) =
      (List.range 32).map some ∧
    (g_register_infos_riscv64_le[0]?).map
        (fun d => d.kinds[lldb.RegisterKind.eRegisterKindDWARF.toNat]?) =
      some (some 4294967295) ∧
    (g_register_infos_riscv64_le[1]?).map
        (fun d => (d.name, d.kinds[lldb.RegisterKind.eRegisterKindDWARF.toNat]?,
          d.kinds[lldb.RegisterKind.eRegisterKindGeneric.toNat]?)) =
      some ("ra", some 3, some 4294967295) := by
  decide

/-- The names of the catalog, in the order of the table. -/
theorem catalog_names :
    g_register_infos_riscv64_le.map (fun d => d.name) =
      ["x0", "ra", "sp", "x3", "x4", "x5", "x6", "x7", "fp", "x9", "x10", "x11", "x12",
       "x13", "x14", "x15", "x16", "x17", "x18", "x19", "x20", "x21", "x22", "x23", "x24",
       "x25", "x26", "x27", "x28", "x29", "x30", "x31"] := by
  decide

/-- The place of every descriptor of the catalog in the raw block: (byte_offset,
byte_size) at position i is (8 * i, 8). -/
theorem catalog_layout :
    g_register_infos_riscv64_le.map (fun d => (d.byte_offset, d.byte_size)) =
      (List.range 32).map (fun i => (8 * i, 8)) := by
  decide

/-- The descriptor at position `i` of the catalog starts at byte `8 * i`, is 8 bytes long,
and `i` is below 32. -/
theorem catalog_layout_at (i : Nat) (d : RegisterInfo)
    (h : g_register_infos_riscv64_le[i]? = some d) :
    i < 32 ∧ d.byte_offset = 8 * i ∧ d.byte_size = 8 := by
  have hm : (g_register_infos_riscv64_le.map (fun d => (d.byte_offset, d.byte_size)))[i]? =
      some (d.byte_offset, d.byte_size) := by
    rw [List.getElem?_map, h]
    rfl
  rw [catalog_layout, List.getElem?_map] at hm
  by_cases hi : i < 32
  · rw [List.getElem?_range hi] at hm
    simp only [Option.map_some', Option.some.injEq, Prod.mk.injEq] at hm
    exact ⟨hi, hm.1.symm, hm.2.symm⟩
  · rw [List.getElem?_eq_none (by simpa using hi)] at hm
    simp at hm

/-- A position below 32 holds a descriptor of the catalog. -/
theorem catalog_has (i : Nat) (hi : i < 32) : ∃ d, g_register_infos_riscv64_le[i]? = some d := by
  have hl : g_register_infos_riscv64_le.length = 32 := by decide
  exact ⟨g_register_infos_riscv64_le[i], List.getElem?_eq_getElem (by omega)⟩

/-- On a descriptor of the catalog RegisterIsCalleeSaved is a test of the name against the
integer cases of the switch alone: no name of the catalog is one of the f cases. -/
theorem RegisterIsCalleeSaved_on_catalog (M : RISCVAbiMasks) (abi : ABISysV_riscv)
    (d : RegisterInfo) (h : d ∈ g_register_infos_riscv64_le) :
    abi.RegisterIsCalleeSaved M (some d) =
      decide (d.name ∈ ["x1", "x2", "x8", "x9", "x18", "x19", "x20", "x21",
        "x22", "x23", "x24", "x25", "x26", "x27"]) := by
  have hf : ∀ d ∈ g_register_infos_riscv64_le,
      d.name ∉ ["f8", "f9", "f18", "f19", "f20", "f21",
        "f22", "f23", "f24", "f25", "f26", "f27"] := by
    decide
  rw [ABISysV_riscv.RegisterIsCalleeSaved_some, if_neg (hf d h)]
  split_ifs with h1
  · exact (decide_eq_true h1).symm
  · exact (decide_eq_false h1).symm

/-- Claim C16, the code at the failing input: whatever the process state, of the
descriptors of the catalog RegisterIsCalleeSaved reports callee-saved those at positions 9
and 18..27 only; the entries at positions 1, 2 and 8, which the catalog names "ra", "sp"
and "fp" (x1, x2, x8 being their alternate names), are reported not callee-saved. -/
theorem catalog_callee_saved_misses_ra_sp_fp (M : RISCVAbiMasks) (abi : ABISysV_riscv) :
    g_register_infos_riscv64_le.map (fun d => abi.RegisterIsCalleeSaved M (some d)) =
      (List.range 32).map
        (fun i => decide (i ∈ [9, 18, 19, 20, 21, 22, 23, 24, 25, 26, 27])) ∧
    (g_register_infos_riscv64_le.filter
        (fun d => decide (d.name ∈ ["ra", "sp", "fp"]))).map
        (fun d => (d.name, d.alt_name, abi.RegisterIsCalleeSaved M (some d))) =
      [("ra", some "x1", false), ("sp", some "x2", false), ("fp", some "x8", false)] := by
  have h1 : g_register_infos_riscv64_le.map (fun d => abi.RegisterIsCalleeSaved M (some d)) =
      g_register_infos_riscv64_le.map (fun d =>
        decide (d.name ∈ ["x1", "x2", "x8", "x9", "x18", "x19", "x20", "x21",
          "x22", "x23", "x24", "x25", "x26", "x27"])) :=
    List.map_congr_left (fun d hd => RegisterIsCalleeSaved_on_catalog M abi d hd)
  have h2 : (g_register_infos_riscv64_le.filter
        (fun d => decide (d.name ∈ ["ra", "sp", "fp"]))).map
        (fun d => (d.name, d.alt_name, abi.RegisterIsCalleeSaved M (some d))) =
      (g_register_infos_riscv64_le.filter
        (fun d => decide (d.name ∈ ["ra", "sp", "fp"]))).map (fun d => (d.name, d.alt_name,
        decide (d.name ∈ ["x1", "x2", "x8", "x9", "x18", "x19", "x20", "x21",
          "x22", "x23", "x24", "x25", "x26", "x27"]))) :=
    List.map_congr_left (fun d hd => by
      rw [RegisterIsCalleeSaved_on_catalog M abi d (List.mem_of_mem_filter hd)])
  rw [h1, h2]
  decide

/-- Claim C18, as stated, fails: for riscv32 GetRegisterInfoPtr gives the table
g_register_infos_riscv64_le itself, whose descriptor at position 1 has byte_size 8 and
byte_offset 8, not 4 and 4. -/
theorem register_table_riscv32_counterexample :
    GetRegisterInfoPtr true (archOf llvm.Triple.ArchType.riscv32) =
      Except.ok (some g_register_infos_riscv64_le) ∧
    GetRegisterInfoPtr false (archOf llvm.Triple.ArchType.riscv32) =
      Except.ok (some g_register_infos_riscv64_le) ∧
    (g_register_infos_riscv64_le[1]?).map (fun d => (d.byte_size, d.byte_offset)) =
      some (8, 8) :=
  ⟨rfl, rfl, by decide⟩

/-- Claim C18, amended: for riscv32 and for riscv64, with or without assertions,
GetRegisterInfoPtr gives one and the same table, g_register_infos_riscv64_le, of
GetRegisterInfoCount = 32 descriptors, so the two variants have the same 32 names in the
same order; in it the descriptor at position i has byte_size 8 and byte_offset 8 * i for
both variants: riscv32 is served by the 64-bit layout. -/
theorem register_table_same_for_both_widths (NDEBUG : Bool) (target_arch : ArchSpec)
    (h : target_arch.GetMachine = llvm.Triple.ArchType.riscv32 ∨
      target_arch.GetMachine = llvm.Triple.ArchType.riscv64) :
    GetRegisterInfoPtr NDEBUG target_arch = Except.ok (some g_register_infos_riscv64_le) ∧
    GetRegisterInfoCount NDEBUG target_arch = Except.ok 32 ∧
    g_register_infos_riscv64_le.map (fun d => d.name) =
      ["x0", "ra", "sp", "x3", "x4", "x5", "x6", "x7", "fp", "x9", "x10", "x11", "x12",
       "x13", "x14", "x15", "x16", "x17", "x18", "x19", "x20", "x21", "x22", "x23", "x24",
       "x25", "x26", "x27", "x28", "x29", "x30", "x31"] ∧
    (∀ (i : Nat) (d : RegisterInfo), g_register_infos_riscv64_le[i]? = some d →
      d.byte_size = 8 ∧ d.byte_offset = 8 * i) := by
  have hl : g_register_infos_riscv64_le.length = 32 := by decide
  refine ⟨?_, ?_, catalog_names, fun i d hd => ?_⟩
  · rcases h with h | h <;> simp only [GetRegisterInfoPtr, h] <;> rfl
  · rcases h with h | h <;> simp only [GetRegisterInfoCount, h, hl] <;> rfl
  · exact ⟨(catalog_layout_at i d hd).2.2, (catalog_layout_at i d hd).2.1⟩

/-- Claim C18, amended, at the two variants: the riscv32 request and the riscv64 request
get the same table. -/
theorem register_table_same_for_both_widths_witness :
    GetRegisterInfoPtr false (archOf llvm.Triple.ArchType.riscv32) =
      GetRegisterInfoPtr false (archOf llvm.Triple.ArchType.riscv64) ∧
    GetRegisterInfoCount false (archOf llvm.Triple.ArchType.riscv32) = Except.ok 32 :=
  ⟨(register_table_same_for_both_widths false (archOf llvm.Triple.ArchType.riscv32)
      (Or.inl rfl)).1.trans
    (register_table_same_for_both_widths false (archOf llvm.Triple.ArchType.riscv64)
      (Or.inr rfl)).1.symm,
   (register_table_same_for_both_widths false (archOf llvm.Triple.ArchType.riscv32)
      (Or.inl rfl)).2.1⟩

/-- Claim C19: the 32 descriptors of the catalog tile the GPR block, one 8-byte word each:
the descriptor at position i occupies the bytes from 8 * i up to 8 * i + 8, the byte ranges
of the descriptors at two different positions are disjoint, every byte of the block of
GetGPRSize() = sizeof(GPR) = 32 * 8 = 256 bytes lies in the range of a descriptor and no
range goes past the block; and the FPR block of GetFPRSize() bytes has room for 32 words of
8 bytes and the 4 bytes of fcsr. -/
theorem catalog_tiles_GPR_block :
    g_register_infos_riscv64_le.length = 32 ∧
    (∀ (i : Nat) (d : RegisterInfo), g_register_infos_riscv64_le[i]? = some d →
      d.byte_offset = 8 * i ∧ d.byte_offset + d.byte_size = 8 * i + 8) ∧
    (∀ (i j : Nat) (di dj : RegisterInfo), g_register_infos_riscv64_le[i]? = some di →
      g_register_infos_riscv64_le[j]? = some dj → i ≠ j →
      di.byte_offset + di.byte_size ≤ dj.byte_offset ∨
      dj.byte_offset + dj.byte_size ≤ di.byte_offset) ∧
    (∀ b : Nat, b < RegisterInfoPOSIX_riscv64.GetGPRSize →
      ∃ (i : Nat) (d : RegisterInfo), g_register_infos_riscv64_le[i]? = some d ∧
        d.byte_offset ≤ b ∧ b < d.byte_offset + d.byte_size) ∧
    (∀ (i : Nat) (d : RegisterInfo), g_register_infos_riscv64_le[i]? = some d →
      d.byte_offset + d.byte_size ≤ RegisterInfoPOSIX_riscv64.GetGPRSize) ∧
    RegisterInfoPOSIX_riscv64.GetGPRSize = sizeofPacked RegisterInfoPOSIX_riscv64.GPR ∧
    RegisterInfoPOSIX_riscv64.GetGPRSize = 32 * 8 ∧
    RegisterInfoPOSIX_riscv64.GetGPRSize = 256 ∧
    32 * 8 + 4 ≤ RegisterInfoPOSIX_riscv64.GetFPRSize := by
  have hsize : RegisterInfoPOSIX_riscv64.GetGPRSize = 256 := by decide
  refine ⟨by decide, ?_, ?_, ?_, ?_, rfl, by decide, hsize, by decide⟩
  · intro i d hd
    obtain ⟨_, ho, hs⟩ := catalog_layout_at i d hd
    omega
  · intro i j di dj hi hj hne
    obtain ⟨_, hoi, hsi⟩ := catalog_layout_at i di hi
    obtain ⟨_, hoj, hsj⟩ := catalog_layout_at j dj hj
    omega
  · intro b hb
    rw [hsize] at hb
    obtain ⟨d, hd⟩ := catalog_has (b / 8) (by omega)
    obtain ⟨_, ho, hs⟩ := catalog_layout_at (b / 8) d hd
    exact ⟨b / 8, d, hd, by omega, by omega⟩
  · intro i d hd
    obtain ⟨hi, ho, hs⟩ := catalog_layout_at i d hd
    omega

/-- Claim C19, at the last byte of the block: byte 255 lies in the range of a descriptor,
and the FPR block has 264 bytes. -/
theorem catalog_tiles_GPR_block_witness :
    (∃ (i : Nat) (d : RegisterInfo), g_register_infos_riscv64_le[i]? = some d ∧
      d.byte_offset ≤ 255 ∧ 255 < d.byte_offset + d.byte_size) ∧
    RegisterInfoPOSIX_riscv64.GetFPRSize = 264 :=
  ⟨catalog_tiles_GPR_block.2.2.2.1 255 (by decide), by decide⟩

namespace ABISysV_riscv

/-- Claim C20: RegisterIsCalleeSaved returns false for the null descriptor; for a descriptor
named "xN" with N from 0 to 31 it returns true iff N is one of 1, 2, 8, 9, 18..27,
whatever the process; for a descriptor named "fN" with N from 0 to 31 it returns true iff N
is one of 8, 9, 18..27 and IsHardFloatProcess() is true, so with no bound process it
returns false for all of them; and for a name that is no "xN" and no "fN" it returns
false. -/
theorem RegisterIsCalleeSaved_on_architectural_names (M : RISCVAbiMasks)
    (abi : ABISysV_riscv) :
    abi.RegisterIsCalleeSaved M none = false ∧
    (∀ (N : Nat) (d : RegisterInfo), N ≤ 31 → d.name = "x" ++ toString N →
      (abi.RegisterIsCalleeSaved M (some d) = true ↔
        N ∈ [1, 2, 8, 9, 18, 19, 20, 21, 22, 23, 24, 25, 26, 27])) ∧
    (∀ (N : Nat) (d : RegisterInfo), N ≤ 31 → d.name = "f" ++ toString N →
      (abi.RegisterIsCalleeSaved M (some d) = true ↔
        N ∈ [8, 9, 18, 19, 20, 21, 22, 23, 24, 25, 26, 27] ∧
        abi.IsHardFloatProcess M = true)) ∧
    (abi.GetProcessSP = none →
      ∀ (N : Nat) (d : RegisterInfo), N ≤ 31 → d.name = "f" ++ toString N →
        abi.RegisterIsCalleeSaved M (some d) = false) ∧
    (∀ d : RegisterInfo,
      (∀ N : Nat, N ≤ 31 → d.name ≠ "x" ++ toString N ∧ d.name ≠ "f" ++ toString N) →
      abi.RegisterIsCalleeSaved M (some d) = false) := by
  have hx : ∀ N, N ≤ 31 →
      (("x" ++ toString N ∈ ["x1", "x2", "x8", "x9", "x18", "x19", "x20", "x21",
          "x22", "x23", "x24", "x25", "x26", "x27"] ↔
        N ∈ [1, 2, 8, 9, 18, 19, 20, 21, 22, 23, 24, 25, 26, 27]) ∧
       "x" ++ toString N ∉ ["f8", "f9", "f18", "f19", "f20", "f21",
          "f22", "f23", "f24", "f25", "f26", "f27"]) := by
    decide
  have hf : ∀ N, N ≤ 31 →
      (("f" ++ toString N ∈ ["f8", "f9", "f18", "f19", "f20", "f21",
          "f22", "f23", "f24", "f25", "f26", "f27"] ↔
        N ∈ [8, 9, 18, 19, 20, 21, 22, 23, 24, 25, 26, 27]) ∧
       "f" ++ toString N ∉ ["x1", "x2", "x8", "x9", "x18", "x19", "x20", "x21",
          "x22", "x23", "x24", "x25", "x26", "x27"]) := by
    decide
  have hxs : ∀ s ∈ ["x1", "x2", "x8", "x9", "x18", "x19", "x20", "x21",
      "x22", "x23", "x24", "x25", "x26", "x27"], ∃ N, N < 32 ∧ s = "x" ++ toString N := by
    decide
  have hfs : ∀ s ∈ ["f8", "f9", "f18", "f19", "f20", "f21",
      "f22", "f23", "f24", "f25", "f26", "f27"], ∃ N, N < 32 ∧ s = "f" ++ toString N := by
    decide
  have hfN : ∀ (N : Nat) (d : RegisterInfo), N ≤ 31 → d.name = "f" ++ toString N →
      (abi.RegisterIsCalleeSaved M (some d) = true ↔
        N ∈ [8, 9, 18, 19, 20, 21, 22, 23, 24, 25, 26, 27] ∧
        abi.IsHardFloatProcess M = true) := by
    intro N d hN hname
    rw [RegisterIsCalleeSaved_some, hname, if_neg (hf N hN).2]
    by_cases hm : "f" ++ toString N ∈ ["f8", "f9", "f18", "f19", "f20", "f21",
        "f22", "f23", "f24", "f25", "f26", "f27"]
    · rw [if_pos hm]
      exact ⟨fun h => ⟨(hf N hN).1.mp hm, h⟩, fun h => h.2⟩
    · rw [if_neg hm]
      exact ⟨fun h => absurd h (by decide), fun h => absurd ((hf N hN).1.mpr h.1) hm⟩
  refine ⟨rfl, ?_, hfN, ?_, ?_⟩
  · intro N d hN hname
    rw [RegisterIsCalleeSaved_some, hname]
    by_cases hm : "x" ++ toString N ∈ ["x1", "x2", "x8", "x9", "x18", "x19", "x20", "x21",
        "x22", "x23", "x24", "x25", "x26", "x27"]
    · rw [if_pos hm]
      exact ⟨fun _ => (hx N hN).1.mp hm, fun _ => rfl⟩
    · rw [if_neg hm, if_neg (hx N hN).2]
      exact ⟨fun h => absurd h (by decide), fun h => absurd ((hx N hN).1.mpr h) hm⟩
  · intro hnone N d hN hname
    have hhf : abi.IsHardFloatProcess M = false := by
      simp [IsHardFloatProcess, hnone]
    cases hres : abi.RegisterIsCalleeSaved M (some d) with
    | false => rfl
    | true =>
      have := ((hfN N d hN hname).mp hres).2
      rw [hhf] at this
      exact absurd this (by decide)
  · intro d hother
    rw [RegisterIsCalleeSaved_some]
    have h1 : d.name ∉ ["x1", "x2", "x8", "x9", "x18", "x19", "x20", "x21",
        "x22", "x23", "x24", "x25", "x26", "x27"] := by
      intro hmem
      obtain ⟨N, hN, hs⟩ := hxs d.name hmem
      exact (hother N (by omega)).1 hs
    have h2 : d.name ∉ ["f8", "f9", "f18", "f19", "f20", "f21",
        "f22", "f23", "f24", "f25", "f26", "f27"] := by
      intro hmem
      obtain ⟨N, hN, hs⟩ := hfs d.name hmem
      exact (hother N (by omega)).2 hs
    rw [if_neg h1, if_neg h2]

/-- Claim C20, at concrete descriptors: "x18" is callee-saved with no process bound, "x10"
is not; "f18" is callee-saved under a hard-float process and, like every "fN", is not
when no process is bound; "pc", which is no "xN" and no "fN", is not. -/
theorem RegisterIsCalleeSaved_on_architectural_names_witness :
    unbound.RegisterIsCalleeSaved sampleMasks (some (RegisterInfo.named "x18")) = true ∧
    (¬ unbound.RegisterIsCalleeSaved sampleMasks (some (RegisterInfo.named "x10")) = true) ∧
    (boundTo 4).RegisterIsCalleeSaved sampleMasks (some (RegisterInfo.named "f18")) = true ∧
    unbound.RegisterIsCalleeSaved sampleMasks (some (RegisterInfo.named "f18")) = false ∧
    unbound.RegisterIsCalleeSaved sampleMasks (some (RegisterInfo.named "pc")) = false :=
  ⟨((RegisterIsCalleeSaved_on_architectural_names sampleMasks unbound).2.1 18
      (RegisterInfo.named "x18") (by decide) (by decide)).mpr (by decide),
   fun hc => absurd
     (((RegisterIsCalleeSaved_on_architectural_names sampleMasks unbound).2.1 10
       (RegisterInfo.named "x10") (by decide) (by decide)).mp hc) (by decide),
   ((RegisterIsCalleeSaved_on_architectural_names sampleMasks (boundTo 4)).2.2.1 18
      (RegisterInfo.named "f18") (by decide) (by decide)).mpr ⟨by decide, by decide⟩,
   (RegisterIsCalleeSaved_on_architectural_names sampleMasks unbound).2.2.2.1 rfl 18
      (RegisterInfo.named "f18") (by decide) (by decide),
   (RegisterIsCalleeSaved_on_architectural_names sampleMasks unbound).2.2.2.2
      (RegisterInfo.named "pc") (by decide)⟩

end ABISysV_riscv

namespace NativeRegisterContextLinux_riscv64

/-- What the scan found: the slot at the index satisfies `p` and no slot before it does. -/
theorem firstIndex_eq_some (p : DREG → Bool) (l : List DREG) (i : Nat)
    (h : firstIndex p l = some i) :
    ∃ slot, l[i]? = some slot ∧ p slot = true ∧
      ∀ (j : Nat) (slot2 : DREG), j < i → l[j]? = some slot2 → p slot2 = false := by
  induction l generalizing i with
  | nil => simp [firstIndex] at h
  | cons a rest ih =>
    unfold firstIndex at h
    by_cases hp : p a = true
    · rw [if_pos hp] at h
      cases h
      exact ⟨a, by simp, hp, fun j _ hj => absurd hj (Nat.not_lt_zero j)⟩
    · rw [if_neg hp] at h
      cases hr : firstIndex p rest with
      | none => simp [hr] at h
      | some k =>
        simp only [hr, Option.map_some', Option.some.injEq] at h
        subst h
        obtain ⟨slot, hs, hps, hbefore⟩ := ih k hr
        refine ⟨slot, by simpa using hs, hps, ?_⟩
        intro j slot2 hj hj2
        cases j with
        | zero =>
          simp only [List.getElem?_cons_zero, Option.some.injEq] at hj2
          subst hj2
          simpa using hp
        | succ j2 =>
          exact hbefore j2 slot2 (by omega) (by simpa using hj2)

/-- The scan finds the first slot that satisfies `p`. -/
theorem firstIndex_of_first (p : DREG → Bool) (l : List DREG) (i : Nat) (slot : DREG)
    (hs : l[i]? = some slot) (hp : p slot = true)
    (hbefore : ∀ (j : Nat) (slot2 : DREG), j < i → l[j]? = some slot2 → p slot2 = false) :
    firstIndex p l = some i := by
  induction l generalizing i with
  | nil => simp at hs
  | cons a rest ih =>
    unfold firstIndex
    cases i with
    | zero =>
      simp only [List.getElem?_cons_zero, Option.some.injEq] at hs
      subst hs
      rw [if_pos hp]
    | succ k =>
      have ha : p a = false := hbefore 0 a (by omega) (by simp)
      rw [if_neg (by simp [ha])]
      have := ih k (by simpa using hs)
        (fun j slot2 hj hj2 => hbefore (j + 1) slot2 (by omega) (by simpa using hj2))
      rw [this]
      rfl

/-- The scan finds nothing when no slot satisfies `p`. -/
theorem firstIndex_eq_none (p : DREG → Bool) (l : List DREG)
    (h : ∀ (j : Nat) (slot : DREG), l[j]? = some slot → p slot = false) :
    firstIndex p l = none := by
  induction l with
  | nil => rfl
  | cons a rest ih =>
    unfold firstIndex
    have ha : p a = false := h 0 a (by simp)
    rw [if_neg (by simp [ha]), ih (fun j slot hj => h (j + 1) slot (by simpa using hj))]
    rfl

/-- The scan finds a slot when some slot satisfies `p`. -/
theorem firstIndex_isSome (p : DREG → Bool) (l : List DREG)
    (h : ∃ slot ∈ l, p slot = true) : ∃ i, firstIndex p l = some i := by
  induction l with
  | nil => simp at h
  | cons a rest ih =>
    unfold firstIndex
    by_cases hp : p a = true
    · exact ⟨0, by rw [if_pos hp]⟩
    · rw [if_neg hp]
      obtain ⟨slot, hmem, hps⟩ := h
      rcases List.mem_cons.mp hmem with rfl | hrest
      · exact absurd hps hp
      · obtain ⟨k, hk⟩ := ih ⟨slot, hrest, hps⟩
        exact ⟨k + 1, by rw [hk]; rfl⟩

end NativeRegisterContextLinux_riscv64

namespace NativeRegisterContextLinux_riscv64

/-- SetWatchpoint on an address no armed slot watches takes the first free slot and programs
it with the address, the control value and the reference count 1. -/
theorem SetWatchpoint_first_use (regs : List DREG) (addr control i : Nat) (slot : DREG)
    (hnone : firstIndex (fun slot => decide (0 < slot.refcount ∧ slot.address = addr)) regs =
      none)
    (hi : firstIndex (fun slot => decide (slot.refcount = 0)) regs = some i)
    (hs : regs[i]? = some slot) (hfree : slot.refcount = 0) :
    SetWatchpoint regs addr control =
      (some i, regs.set i
        { address := addr, hit_addr := 0, real_addr := addr, control := control,
          refcount := 1 }) := by
  simp only [SetWatchpoint, findSlot, hnone, hi, hs]
  rw [if_neg (by omega)]

/-- SetWatchpoint on the address of an armed slot increments its reference count and
changes nothing else. -/
theorem SetWatchpoint_repeat_use (regs : List DREG) (addr control i : Nat) (slot : DREG)
    (hi : firstIndex (fun slot => decide (0 < slot.refcount ∧ slot.address = addr)) regs =
      some i)
    (hs : regs[i]? = some slot) (harmed : 0 < slot.refcount) :
    SetWatchpoint regs addr control =
      (some i, regs.set i { slot with refcount := slot.refcount + 1 }) := by
  simp only [SetWatchpoint, findSlot, hi, hs]
  rw [if_pos harmed]

end NativeRegisterContextLinux_riscv64

namespace NativeRegisterContextLinux_riscv64

/-- Claim C15: a watchpoint slot is enabled iff its reference count is above 0. In a table
of 16 slots with a free slot, for an address that no armed slot watches: setting a
watchpoint on the address twice takes one slot, index i, and brings its count to 2;
clearing it once leaves the slot armed on the address with count 1; clearing it a second
time disarms it, count 0, and a later request for an address not yet watched gets the same
slot i again; every other slot is, after each of the four steps, as it was at the
start. -/
theorem watchpoint_slot_is_reference_counted (m_hwp_regs : List DREG) (addr control : Nat)
    (hlen : m_hwp_regs.length = k_num_hwp_regs)
    (hfresh : ∀ slot ∈ m_hwp_regs, 0 < slot.refcount → slot.address ≠ addr)
    (hfree : ∃ slot ∈ m_hwp_regs, slot.refcount = 0) :
    (∀ (regs : List DREG) (j : Nat) (slot : DREG), regs[j]? = some slot →
      (WatchpointIsEnabled regs j = true ↔ 0 < slot.refcount)) ∧
    ∃ (i : Nat) (s1 s2 s3 s4 : List DREG),
      SetWatchpoint m_hwp_regs addr control = (some i, s1) ∧
      SetWatchpoint s1 addr control = (some i, s2) ∧
      ClearWatchpoint s2 i = (true, s3) ∧
      ClearWatchpoint s3 i = (true, s4) ∧
      i < 16 ∧
      s1[i]?.map (fun slot => slot.refcount) = some 1 ∧
      s2[i]?.map (fun slot => slot.refcount) = some 2 ∧
      s3[i]?.map (fun slot => (slot.address, slot.refcount)) = some (addr, 1) ∧
      WatchpointIsEnabled s3 i = true ∧
      s4[i]?.map (fun slot => slot.refcount) = some 0 ∧
      WatchpointIsEnabled s4 i = false ∧
      (∀ addr2 control2 : Nat,
        (∀ slot ∈ m_hwp_regs, 0 < slot.refcount → slot.address ≠ addr2) →
        (SetWatchpoint s4 addr2 control2).1 = some i) ∧
      (∀ j : Nat, j ≠ i →
        s1[j]? = m_hwp_regs[j]? ∧ s2[j]? = m_hwp_regs[j]? ∧
        s3[j]? = m_hwp_regs[j]? ∧ s4[j]? = m_hwp_regs[j]?) ∧
      s4.length = 16 := by
  refine ⟨?_, ?_⟩
  · intro regs j slot hj
    simp [WatchpointIsEnabled, hj]
  -- the first request finds no armed slot on the address and takes the first free slot
  have hnone : firstIndex (fun slot => decide (0 < slot.refcount ∧ slot.address = addr))
      m_hwp_regs = none := by
    apply firstIndex_eq_none
    intro j slot hj
    have := hfresh slot (List.getElem?_mem hj)
    by_cases hr : 0 < slot.refcount
    · simp [hr, this hr]
    · simp [hr]
  obtain ⟨i, hi⟩ := firstIndex_isSome (fun slot => decide (slot.refcount = 0)) m_hwp_regs
    (by obtain ⟨slot, hm, hz⟩ := hfree; exact ⟨slot, hm, by simp [hz]⟩)
  obtain ⟨slot0, hs0, hp0, hbefore⟩ := firstIndex_eq_some _ _ _ hi
  have hz0 : slot0.refcount = 0 := by simpa using hp0
  have hilt : i < m_hwp_regs.length := (List.getElem?_eq_some.mp hs0).1
  have h1 := SetWatchpoint_first_use m_hwp_regs addr control i slot0 hnone hi hs0 hz0
  -- the second request finds that slot armed on the address
  have hs1 : (m_hwp_regs.set i
      { address := addr, hit_addr := 0, real_addr := addr, control := control,
        refcount := 1 })[i]? =
      some { address := addr, hit_addr := 0, real_addr := addr, control := control,
             refcount := 1 } := List.getElem?_set_self hilt
  have hfind2 : firstIndex (fun slot => decide (0 < slot.refcount ∧ slot.address = addr))
      (m_hwp_regs.set i
        { address := addr, hit_addr := 0, real_addr := addr, control := control,
          refcount := 1 }) = some i := by
    apply firstIndex_of_first _ _ _ _ hs1 (by simp)
    intro j slot2 hj hj2
    rw [List.getElem?_set_ne (by omega)] at hj2
    have := hfresh slot2 (List.getElem?_mem hj2)
    by_cases hr : 0 < slot2.refcount
    · simp [hr, this hr]
    · simp [hr]
  have h2 := SetWatchpoint_repeat_use _ addr control i _ hfind2 hs1 Nat.one_pos
  rw [List.set_set] at h2
  have hs2 : (m_hwp_regs.set i
      { address := addr, hit_addr := 0, real_addr := addr, control := control,
        refcount := 1 + 1 })[i]? =
      some { address := addr, hit_addr := 0, real_addr := addr, control := control,
             refcount := 1 + 1 } := List.getElem?_set_self hilt
  -- the first clear decrements, the second one disarms
  have h3 : ClearWatchpoint (m_hwp_regs.set i
      { address := addr, hit_addr := 0, real_addr := addr, control := control,
        refcount := 1 + 1 }) i =
      (true, m_hwp_regs.set i
        { address := addr, hit_addr := 0, real_addr := addr, control := control,
          refcount := 1 }) := by
    simp only [ClearWatchpoint, hs2]
    simp [List.set_set]
  have h4 : ClearWatchpoint (m_hwp_regs.set i
      { address := addr, hit_addr := 0, real_addr := addr, control := control,
        refcount := 1 }) i =
      (true, m_hwp_regs.set i
        { address := 0, hit_addr := 0, real_addr := 0, control := 0, refcount := 0 }) := by
    simp only [ClearWatchpoint, hs1]
    simp [List.set_set]
  have hs4 : (m_hwp_regs.set i
      { address := 0, hit_addr := 0, real_addr := 0, control := 0, refcount := 0 })[i]? =
      some { address := 0, hit_addr := 0, real_addr := 0, control := 0, refcount := 0 } :=
    List.getElem?_set_self hilt
  refine ⟨i, _, _, _, _, h1, h2, h3, h4, ?_, ?_, ?_, ?_, ?_, ?_, ?_, ?_, ?_, ?_⟩
  · rw [hlen] at hilt; exact hilt
  · rw [hs1]; rfl
  · rw [hs2]; rfl
  · rw [hs1]; rfl
  · simp [WatchpointIsEnabled, hs1]
  · rw [hs4]; rfl
  · simp [WatchpointIsEnabled, hs4]
  · -- the freed slot is the first free slot again
    intro addr2 control2 hfresh2
    have hnone2 : firstIndex (fun slot => decide (0 < slot.refcount ∧ slot.address = addr2))
        (m_hwp_regs.set i
          { address := 0, hit_addr := 0, real_addr := 0, control := 0, refcount := 0 }) =
        none := by
      apply firstIndex_eq_none
      intro j slot hj
      by_cases hji : i = j
      · subst hji
        rw [hs4] at hj
        cases hj
        simp
      · rw [List.getElem?_set_ne hji] at hj
        have := hfresh2 slot (List.getElem?_mem hj)
        by_cases hr : 0 < slot.refcount
        · simp [hr, this hr]
        · simp [hr]
    have hi2 : firstIndex (fun slot => decide (slot.refcount = 0))
        (m_hwp_regs.set i
          { address := 0, hit_addr := 0, real_addr := 0, control := 0, refcount := 0 }) =
        some i := by
      apply firstIndex_of_first _ _ _ _ hs4 (by simp)
      intro j slot2 hj hj2
      rw [List.getElem?_set_ne (by omega)] at hj2
      exact hbefore j slot2 hj hj2
    rw [SetWatchpoint_first_use _ addr2 control2 i _ hnone2 hi2 hs4 rfl]
  · intro j hj
    have hne : i ≠ j := fun h => hj h.symm
    exact ⟨List.getElem?_set_ne hne, List.getElem?_set_ne hne, List.getElem?_set_ne hne,
      List.getElem?_set_ne hne⟩
  · rw [List.length_set, hlen]; rfl

/-- Claim C15, on a table whose slot 0 is armed on address 4096 and whose other 15 slots
are free, for the address 8192: slot 1 is taken, twice; after one clear it is armed with
count 1, after two it is free with count 0, and slot 0 is as before. -/
theorem watchpoint_slot_is_reference_counted_witness :
    (SetWatchpoint sampleSlots 8192 1).1 = some 1 ∧
    (SetWatchpoint (SetWatchpoint sampleSlots 8192 1).2 8192 1).1 = some 1 ∧
    ((ClearWatchpoint (SetWatchpoint (SetWatchpoint sampleSlots 8192 1).2 8192 1).2 1).2[1]?).map
      (fun slot => slot.refcount) = some 1 ∧
    ((ClearWatchpoint (ClearWatchpoint
      (SetWatchpoint (SetWatchpoint sampleSlots 8192 1).2 8192 1).2 1).2 1).2[1]?).map
      (fun slot => slot.refcount) = some 0 ∧
    (ClearWatchpoint (ClearWatchpoint
      (SetWatchpoint (SetWatchpoint sampleSlots 8192 1).2 8192 1).2 1).2 1).2[0]? =
      sampleSlots[0]? ∧
    ∃ (i : Nat) (s1 s2 s3 s4 : List DREG),
      SetWatchpoint sampleSlots 8192 1 = (some i, s1) ∧
      SetWatchpoint s1 8192 1 = (some i, s2) ∧
      ClearWatchpoint s2 i = (true, s3) ∧
      ClearWatchpoint s3 i = (true, s4) ∧
      WatchpointIsEnabled s3 i = true ∧
      WatchpointIsEnabled s4 i = false :=
  ⟨by decide, by decide, by decide, by decide, by decide,
   (watchpoint_slot_is_reference_counted sampleSlots 8192 1 (by decide) (by decide)
      (by decide)).2.elim
     (fun i h => h.elim (fun s1 h => h.elim (fun s2 h => h.elim (fun s3 h => h.elim
       (fun s4 h => ⟨i, s1, s2, s3, s4, h.1, h.2.1, h.2.2.1, h.2.2.2.1,
         h.2.2.2.2.2.2.2.2.1, h.2.2.2.2.2.2.2.2.2.2.1⟩)))))⟩

end NativeRegisterContextLinux_riscv64

/-- Claim C21, the code at the failing input: the catalog offset GPR_OFFSET(N) = 8 * N is
the offset in struct GPR of the field that holds xN for N from 0 to 7 only. From x8 on the
two differ: the catalog reads fp (x8) at byte 64, which in the struct is t[3], while
offsetof(GPR, s[0]) is 96; it reads x10 at byte 80, while offsetof(GPR, a[0]) is 192. -/
theorem catalog_offsets_disagree_with_GPR_fields :
    (List.range 32).filter (fun N => decide
        (some (GPR_OFFSET N) = GPR_OFFSET_NAME (abiFieldOfX N).1 (abiFieldOfX N).2)) =
      [0, 1, 2, 3, 4, 5, 6, 7] ∧
    (List.range 32).map (fun N => GPR_OFFSET_NAME (abiFieldOfX N).1 (abiFieldOfX N).2) =
      [some 0, some 8, some 16, some 24, some 32, some 40, some 48, some 56,
       some 96, some 104,
       some 192, some 200, some 208, some 216, some 224, some 232, some 240, some 248,
       some 112, some 120, some 128, some 136, some 144, some 152, some 160, some 168,
       some 176, some 184,
       some 64, some 72, some 80, some 88] ∧
    (g_register_infos_riscv64_le[8]?).map (fun d => (d.name, d.byte_offset)) =
      some ("fp", 64) ∧
    abiFieldOfX 8 = ("s", 0) ∧
    GPR_OFFSET_NAME "s" 0 = some 96 ∧
    GPR_OFFSET_NAME "t" 3 = some 64 ∧
    (g_register_infos_riscv64_le[10]?).map (fun d => (d.name, d.byte_offset)) =
      some ("x10", 80) ∧
    abiFieldOfX 10 = ("a", 0) ∧
    GPR_OFFSET_NAME "a" 0 = some 192 := by
  decide

/-- Claim C22, the code at the failing input: FPU_OFFSET(idx) = idx * 16 + sizeof(GPR)
steps by 16 bytes while the elements of `uint64_t f[32]` are 8 bytes apart, so it is
sizeof(GPR) + offsetof(FPU, f[idx]) for idx = 0 only (FPU_OFFSET(1) is 272, f[1] is at
264); and FPU_OFFSET(idx) + 8 stays within sizeof(GPR) + sizeof(FPU) = 520 for idx up to
16 only (FPU_OFFSET(17) + 8 is 536, FPU_OFFSET(31) + 8 is 760). -/
theorem FPU_OFFSET_leaves_the_FPR_block :
    (List.range 32).filter (fun idx => decide
        (some (FPU_OFFSET idx) = FPU_OFFSET_NAME "f" idx)) = [0] ∧
    (List.range 32).filter (fun idx => decide
        (FPU_OFFSET idx + 8 ≤ sizeofPacked RegisterInfoPOSIX_riscv64.GPR +
          sizeofNatural RegisterInfoPOSIX_riscv64.FPU)) = List.range 17 ∧
    (List.range 32).map (fun idx => FPU_OFFSET_NAME "f" idx) =
      (List.range 32).map (fun idx => some (256 + 8 * idx)) ∧
    FPU_OFFSET 1 = 272 ∧
    FPU_OFFSET_NAME "f" 1 = some 264 ∧
    FPU_OFFSET 17 + 8 = 536 ∧
    FPU_OFFSET 31 + 8 = 760 ∧
    sizeofPacked RegisterInfoPOSIX_riscv64.GPR + sizeofNatural RegisterInfoPOSIX_riscv64.FPU =
      520 ∧
    RegisterInfoPOSIX_riscv64.GetGPRSize + RegisterInfoPOSIX_riscv64.GetFPRSize = 520 := by
  decide
